import Mathlib

/-!
Verification of the launch-script generator
(`misc/config_tools/launch_config/launch_cfg_gen.py`).

The Python source is shallowly embedded below: XML documents are modelled as
structures whose fields hold the answers to exactly the XPath queries the
source performs, Python lists become Lean lists, fallible code (a `pop` from
an empty list, `int()` on a malformed string, attribute access on `None`)
becomes `Option`-valued code where `none` models an uncaught Python exception.
-/

namespace LaunchCfg

/-- Characters stripped by Python's `str.strip()` (whitespace). -/
def isPySpace (c : Char) : Bool :=
  c == ' ' || c == '\t' || c == '\n' || c == '\r' || c == '\x0b' || c == '\x0c'

/-- Right strip (Python `str.rstrip()`) on a character list. -/
def rstripList (l : List Char) : List Char :=
  (l.reverse.dropWhile isPySpace).reverse

/-- Python `str.strip()` on a character list. -/
def stripList (l : List Char) : List Char :=
  rstripList (l.dropWhile isPySpace)

/-- Python `str.strip()`. -/
def pyStrip (s : String) : String :=
  String.mk (stripList s.data)

/-- Rendering of an optional text the way a Python f-string renders it:
`None` prints as the four characters `None`. -/
def pyStr : Option String → String
  | none => "None"
  | some s => s

/-- Source: `f"{cmd:40s}"`: left-justify, pad with spaces to a minimal width. -/
def padRight (s : String) (w : Nat) : String :=
  s ++ String.mk (List.replicate (w - s.length) ' ')

/-- Python `str.split(sep)` for a one-character separator, on char lists. -/
def pySplitChars (sep : Char) (l : List Char) : List (List Char) :=
  l.foldr
    (fun c acc =>
      if c == sep then [] :: acc
      else
        match acc with
        | [] => [[c]]
        | h :: t => (c :: h) :: t)
    [[]]

/-- Python `str.split(sep)` for a one-character separator. -/
def pySplit (sep : Char) (s : String) : List String :=
  (pySplitChars sep s.data).map String.mk

/-- First split point of `sep`, if any: Python `s.split(sep, maxsplit=1)`
yields `[a, b]` when `sep` occurs and `[s]` otherwise. -/
def splitOnceChars (sep : Char) : List Char → Option (List Char × List Char)
  | [] => none
  | c :: rest =>
    if c == sep then some ([], rest)
    else (splitOnceChars sep rest).map (fun p => (c :: p.1, p.2))

/-- Python `s.split(sep, maxsplit=1)` for a one-character separator. -/
def pySplitMax1 (sep : Char) (s : String) : List String :=
  match splitOnceChars sep s.data with
  | none => [s]
  | some (a, b) => [String.mk a, String.mk b]

/-- Python `s.replace(pat, rep)` (all occurrences) on character lists;
`pat` is assumed non-empty at call sites (Python with an empty pattern
behaves differently, but the source only replaces `"sock "`). -/
def replaceAllChars (pat rep : List Char) : List Char → List Char
  | [] => []
  | c :: rest =>
    if h : pat ≠ [] ∧ pat.isPrefixOf (c :: rest) then
      rep ++ replaceAllChars pat rep ((c :: rest).drop pat.length)
    else
      c :: replaceAllChars pat rep rest
termination_by l => l.length
decreasing_by
  · simp only [List.length_drop, List.length_cons]
    have hpat : 0 < pat.length := List.length_pos.mpr h.1
    omega
  · simp

/-- Python `s.replace(pat, rep)`. -/
def pyReplace (s pat rep : String) : String :=
  String.mk (replaceAllChars pat.data rep.data s.data)

/-- Source: `os.path.basename`: the text after the last `/`. -/
def pyBasename (s : String) : String :=
  (pySplit '/' s).getLastD s

/-- Source: `os.path.join a b` for two components (POSIX). -/
def pyPathJoin (a b : String) : String :=
  if b.data.head? == some '/' then b
  else if a == "" then b
  else if a.data.getLast? == some '/' then a ++ b
  else a ++ "/" ++ b

/-- Value of a hexadecimal digit, accepting both cases. -/
def hexDigitVal? (c : Char) : Option Nat :=
  if '0' ≤ c ∧ c ≤ '9' then some (c.toNat - '0'.toNat)
  else if 'a' ≤ c ∧ c ≤ 'f' then some (c.toNat - 'a'.toNat + 10)
  else if 'A' ≤ c ∧ c ≤ 'F' then some (c.toNat - 'A'.toNat + 10)
  else none

/-- Value of a decimal digit. -/
def decDigitVal? (c : Char) : Option Nat :=
  if '0' ≤ c ∧ c ≤ '9' then some (c.toNat - '0'.toNat) else none

/-- Accumulate digits of base `b`; `none` on an empty or malformed string. -/
def parseDigits (digit : Char → Option Nat) (b : Nat) (l : List Char) : Option Nat :=
  match l with
  | [] => none
  | _ =>
    l.foldlM (fun acc c => (digit c).map (fun d => acc * b + d)) 0

/-- Python `int(s, 16)`: surrounding whitespace and an optional `0x`/`0X`
prefix are accepted.  (A leading sign, which never occurs in the documents
at hand, is not modelled.) -/
def pyIntHex (s : String) : Option Nat :=
  let t := stripList s.data
  let t := if ['0', 'x'].isPrefixOf t ∨ ['0', 'X'].isPrefixOf t then t.drop 2 else t
  parseDigits hexDigitVal? 16 t

/-- Python `int(s)`: surrounding whitespace accepted, decimal digits.
(A leading sign is not modelled; ids in scenarios are non-negative.) -/
def pyIntDec (s : String) : Option Nat :=
  parseDigits decDigitVal? 10 (stripList s.data)

/-- Source: `f"{n:02x}"`: lowercase hexadecimal, zero-padded to two digits. -/
def toHexPad2 (n : Nat) : String :=
  let d := Nat.toDigits 16 n
  String.mk (if d.length < 2 then '0' :: d else d)

/-- Python's substring containment `pat in s` on character lists. -/
def containsSub (pat : List Char) : List Char → Bool
  | [] => pat.isEmpty
  | c :: rest => pat.isPrefixOf (c :: rest) || containsSub pat rest

/-- Truthiness of `"igd" in options` guarded by `if options:`
(`options` must be a non-empty string and contain `igd` as a substring). -/
def hasIgd (options : Option String) : Bool :=
  match options with
  | none => false
  | some s => !s.data.isEmpty && containsSub "igd".data s.data

/-!  ## Board and scenario documents  -/

/-- One `<thread>` under `//processors`: its `cpu_id` text and, when
present, its `apic_id` text parsed with `int(_, 16)` (the source would
raise on a malformed `apic_id`; board-inspector output is plain hex, so
the parsed value is carried directly). -/
structure ProcessorThread where
  cpu_id : String
  apic_id : Option Nat
deriving DecidableEq, Repr

/-- One `<device>` under a PCI `<bus>` in the board document.  `bus` is the
numeric value of the parent bus's `@address` and `address` the numeric value
of the device's `@address` (the source compares `0x%x`-formatted strings;
board-inspector addresses are well-formed hex, so the comparison is modelled
numerically). -/
structure BoardPciDevice where
  bus : Nat
  address : Nat
  vendor : Option String
  class_code : Option String
deriving DecidableEq, Repr

/-- The board document: processor threads and PCI devices in document order. -/
structure Board where
  threads : List ProcessorThread
  pci_devices : List BoardPciDevice
deriving DecidableEq, Repr

/-!  ## The virtual BDF (slot) allocator  -/

/-- Source: `LaunchScript.VirtualBDFAllocator`: the free-slot pool. -/
structure VirtualBDFAllocator where
  free_slots : List Nat
deriving DecidableEq, Repr

/-- Source: `VirtualBDFAllocator.__init__`: `self._free_slots = list(range(3, 30))`.
The comment in the source reserves slots 0, 1, 2 and 31; note that
`range(3, 30)` yields 3..29, so slot 30 is also (silently) excluded. -/
def VirtualBDFAllocator.init : VirtualBDFAllocator :=
  ⟨List.range' 3 27⟩

/-- The GPU shortcut condition of `get_virtual_bdf`: a device whose class
code is `0x030000`, or truthy options containing `igd`. -/
def isGpuShortcut (device : Option BoardPciDevice) (options : Option String) : Bool :=
  (device.bind (fun d => d.class_code)) == some "0x030000" || hasIgd options

/-- Source: `VirtualBDFAllocator.get_virtual_bdf`: VGA-class devices and
`igd`-marked options take fixed slot 2 without touching the pool; otherwise
the lowest free slot is popped.  `none` models the `IndexError` that
`self._free_slots.pop(0)` raises on an exhausted pool.  (The source also
reads the parent bus address and the vendor id into local variables; both
are unused.) -/
def VirtualBDFAllocator.get_virtual_bdf (a : VirtualBDFAllocator)
    (device : Option BoardPciDevice) (options : Option String) :
    Option (Nat × VirtualBDFAllocator) :=
  if (device.bind (fun d => d.class_code)) == some "0x030000" then
    some (2, a)
  else if hasIgd options then
    some (2, a)
  else
    match a.free_slots with
    | [] => none
    | s :: rest => some (s, ⟨rest⟩)

/-- Source: `VirtualBDFAllocator.remove_virtual_bdf`: remove the slot from the pool
if present (first occurrence), otherwise do nothing. -/
def VirtualBDFAllocator.remove_virtual_bdf (a : VirtualBDFAllocator) (slot : Nat) :
    VirtualBDFAllocator :=
  ⟨a.free_slots.erase slot⟩

/-- One call against a VM's allocator: an allocation (with the device node
and options that `get_virtual_bdf` receives) or a release. -/
inductive AllocOp where
  | alloc (device : Option BoardPciDevice) (options : Option String)
  | release (slot : Nat)
deriving DecidableEq, Repr

/-!  ## Scenario document  -/

/-- A value handed to `add_virtual_device`'s `vbdf` argument: the source
passes Python ints (parsed slots) in some calls and raw strings (`"0:0"`,
`"1:0"`) in others. -/
inductive PyVal where
  | int (n : Nat)
  | str (s : String)
deriving DecidableEq, Repr

/-- Source: `f"{v}"` for a `PyVal`. -/
def pyValStr : PyVal → String
  | PyVal.int n => toString n
  | PyVal.str s => s

/-- One `<IVSHMEM_REGION>`.  `vbdf` is the first `.//VBDF` text anywhere in
the region (that is what `eval_xpath(ivshmem, ".//VBDF/text()")` returns,
regardless of which member VM it belongs to); `name`/`size` model
`find('NAME')`/`find('IVSHMEM_SIZE')`: the outer `none` is a missing child
(an `AttributeError` in the source), the inner `none` an empty element
(whose `.text` is Python `None`, rendered `None`). -/
structure IvshmemRegion where
  provided_by : Option String
  vm_names : List String
  vbdf : Option String
  name : Option (Option String)
  size : Option (Option String)
deriving DecidableEq, Repr

/-- One `<endpoint>` of a vuart connection. -/
structure VuartEndpoint where
  vm_name : String
  vbdf : Option String
deriving DecidableEq, Repr

/-- One `<vuart_connection>` of the hypervisor scenario. -/
structure VuartConnection where
  conn_type : Option String
  endpoints : List VuartEndpoint
deriving DecidableEq, Repr

/-- One `<input>` under `virtio_devices`. -/
structure VirtioInput where
  backend_device_file : Option String
  id : Option String
deriving DecidableEq, Repr

/-- One `<console>` under `virtio_devices`. -/
structure VirtioConsole where
  use_type : Option String
  backend_type : Option String
  output_file_path : Option String
  tty_device_path : Option String
  sock_file_path : Option String
deriving DecidableEq, Repr

/-- One `<network>` under `virtio_devices`. -/
structure VirtioNetwork where
  virtio_framework : Option String
  interface_name : Option String
deriving DecidableEq, Repr

/-- One `<display>` of a virtio GPU. -/
structure GpuDisplay where
  window_dimensions : Option String
  horizontal_offset : Option String
  vertical_offset : Option String
  monitor_id : Option String
deriving DecidableEq, Repr

/-- One `<gpu>` under `virtio_devices`. -/
structure VirtioGpu where
  display_type : Option String
  displays : List GpuDisplay
deriving DecidableEq, Repr

/-- Per-VM scenario content: each field holds the result of the XPath
query the source performs against the VM's subtree.  `os_types` lists all
`.//os_type` texts (the source both takes the first one and tests for the
existence of one equal to `Windows OS`); `ptm_y` is the result of the
node test `.//PTM[text()='y']`. -/
structure VmScenario where
  name : Option String
  os_types : List String
  vm_type : Option String
  cpu_affinity : List String
  memory_size : Option String
  vbootloader : Option String
  vuart0 : Option String
  console_vuart : Option String
  usb_xhci : List String
  virtio_inputs : List VirtioInput
  virtio_consoles : List VirtioConsole
  virtio_networks : List VirtioNetwork
  virtio_blocks : List String
  virtio_gpus : List VirtioGpu
  vsocks : List String
  pci_devs : List String
  lapic_passthrough : Option String
  ptm_y : Bool
deriving DecidableEq, Repr

/-- Document-level scenario content reachable from any element (the source
queries `//IVSHMEM_REGION` and `//vuart_connection` with absolute paths,
which lxml resolves against the whole document): the hypervisor scheduler
text, the vuart connections and the ivshmem regions. -/
structure ScenarioDoc where
  scheduler : Option String
  vuart_connections : List VuartConnection
  ivshmem_regions : List IvshmemRegion
deriving DecidableEq, Repr

/-- The whole scenario document as `main` reads it: the service VM's `@id`
attribute (already converted to an integer; ids in scenarios are decimal
attribute values), the pre-launched VMs' cpu affinity texts, and the
post-launched VMs paired with their `@id`. -/
structure Scenario where
  service_vm_id : Option Int
  pre_launched_cpu_ids : List String
  post_vms : List (Int × VmScenario)
  doc : ScenarioDoc
deriving DecidableEq, Repr

/-!  ## The launch script (command-stream builder)  -/

/-- Source: `LaunchScript`: the per-VM artifact state.  `cpu_dict` stores the
service-VM cpu/apic table of `add_sos_cpu_dict`.  The `board` and `vm`
fields model the `_board_etree`/`_vm_scenario_etree` references kept by
the Python object. -/
structure LaunchScript where
  board : Board
  vm : VmScenario
  vm_name : String
  vm_descriptors : List (String × String)
  init_commands : List String
  cpu_dict : List (Nat × Option Nat)
  dm_parameters : List String
  deinit_commands : List String
  vbdf_allocator : VirtualBDFAllocator
deriving DecidableEq, Repr

/-- Source: `LaunchScript.__init__`. -/
def LaunchScript.init (board : Board) (vm_name : String) (vm : VmScenario) : LaunchScript :=
  { board := board, vm := vm, vm_name := vm_name, vm_descriptors := [],
    init_commands := [], cpu_dict := [], dm_parameters := [],
    deinit_commands := [], vbdf_allocator := VirtualBDFAllocator.init }

/-- Source: `add_vm_descriptor`: dict upsert (last write wins, first-write order). -/
def LaunchScript.add_vm_descriptor (s : LaunchScript) (n v : String) : LaunchScript :=
  if s.vm_descriptors.any (fun p => p.1 == n) then
    { s with vm_descriptors := s.vm_descriptors.map (fun p => if p.1 == n then (n, v) else p) }
  else
    { s with vm_descriptors := s.vm_descriptors ++ [(n, v)] }

/-- Source: `add_sos_cpu_dict`. -/
def LaunchScript.add_sos_cpu_dict (s : LaunchScript) (l : List (Nat × Option Nat)) : LaunchScript :=
  { s with cpu_dict := l }

/-- Source: `add_init_command`: append if absent. -/
def LaunchScript.add_init_command (s : LaunchScript) (command : String) : LaunchScript :=
  if command ∈ s.init_commands then s
  else { s with init_commands := s.init_commands ++ [command] }

/-- Source: `add_deinit_command`: append if absent. -/
def LaunchScript.add_deinit_command (s : LaunchScript) (command : String) : LaunchScript :=
  if command ∈ s.deinit_commands then s
  else { s with deinit_commands := s.deinit_commands ++ [command] }

/-- Source: `add_plain_dm_parameter`: append if absent (`full_opt = f"{opt}"`). -/
def LaunchScript.add_plain_dm_parameter (s : LaunchScript) (opt : String) : LaunchScript :=
  if opt ∈ s.dm_parameters then s
  else { s with dm_parameters := s.dm_parameters ++ [opt] }

/-- The text of a dynamic parameter:
`` f"`{cmd:40s} {opt}".strip()` `` wrapped in backquotes. -/
def dynFullOpt (cmd opt : String) : String :=
  "`" ++ pyStrip (padRight cmd 40 ++ " " ++ opt) ++ "`"

/-- Source: `add_dynamic_dm_parameter`: append if absent. -/
def LaunchScript.add_dynamic_dm_parameter (s : LaunchScript) (cmd opt : String) : LaunchScript :=
  let full_opt := dynFullOpt cmd opt
  if full_opt ∈ s.dm_parameters then s
  else { s with dm_parameters := s.dm_parameters ++ [full_opt] }

/-- Source: `has_dm_parameter`. -/
def LaunchScript.has_dm_parameter (s : LaunchScript) (fn : String → Bool) : Bool :=
  s.dm_parameters.any fn

/-- Source: `PassThruDeviceOptions.get_option`: walk the static class-code table
in insertion order; for every key that prefixes the device class code and
whose scenario predicate holds, append its option token.
The table is `0x0200 → PTM enabled → enable_ptm` and
`0x0c0330 → Windows OS → d3hot_reset`. -/
def get_option (device : Option BoardPciDevice) (vm : VmScenario) : String :=
  match device with
  | none => ""
  | some d =>
    let class_code := d.class_code.getD ""
    let opts :=
      (if "0x0200".data.isPrefixOf class_code.data ∧ vm.ptm_y then ["enable_ptm"] else []) ++
      (if "0x0c0330".data.isPrefixOf class_code.data ∧ vm.os_types.contains "Windows OS" then
        ["d3hot_reset"] else [])
    String.intercalate "," opts

/-- The head of `add_virtual_device`: on an `RTVM`, any `virtio` device
first ensures the polling parameter. -/
def virtioPollStep (s : LaunchScript) (kind : String) : LaunchScript :=
  if containsSub "virtio".data kind.data && (s.vm.vm_type == some "RTVM") then
    s.add_plain_dm_parameter "--virtio_poll 1000000"
  else s

/-- Source: `add_virtual_device`: on an `RTVM`, any `virtio` device first ensures
the polling parameter; a caller-supplied vbdf is reserved out of the pool
(a no-op for the raw-string vbdfs, which are never members of the integer
pool), otherwise a slot is drawn from the pool. -/
def LaunchScript.add_virtual_device (s : LaunchScript) (kind : String)
    (vbdf : Option PyVal) (options : String) : Option LaunchScript :=
  let s := virtioPollStep s kind
  match vbdf with
  | some v =>
    let s := { s with vbdf_allocator :=
      match v with
      | PyVal.int n => s.vbdf_allocator.remove_virtual_bdf n
      | PyVal.str _ => s.vbdf_allocator }
    some (s.add_dynamic_dm_parameter "add_virtual_device"
      (pyValStr v ++ " " ++ kind ++ " " ++ options))
  | none =>
    match s.vbdf_allocator.get_virtual_bdf none none with
    | none => none
    | some (n, a) =>
      let s := { s with vbdf_allocator := a }
      some (s.add_dynamic_dm_parameter "add_virtual_device"
        (toString n ++ " " ++ kind ++ " " ++ options))

/-- The parameter text of `add_passthrough_device`:
`f"{vbdf} 0000:{bus:02x}:{dev:02x}.{fun} {options}"`. -/
def passthruParamText (vbdf bus dev fn : Nat) (options : String) : String :=
  toString vbdf ++ " 0000:" ++ toHexPad2 bus ++ ":" ++ toHexPad2 dev ++ "." ++
    toString fn ++ " " ++ options

/-- The board-document lookup performed by `add_passthru_device`:
first `//bus[@type='pci' and @address='0x%x' % bus]/device[@address='0x%x' % (dev << 16 | fun)]`. -/
def findBoardDevice (board : Board) (bus dev fn : Nat) : Option BoardPciDevice :=
  board.pci_devices.find? (fun d => d.bus == bus && d.address == ((dev <<< 16) ||| fn))

/-- Source: `add_passthru_device`: look the device up on the board, infer options
when none are supplied, allocate a slot (GPU shortcut included), emit the
passthrough parameter and — except for the fixed GPU slot 2 — the
interrupt-storm-monitor parameter. -/
def LaunchScript.add_passthru_device (s : LaunchScript) (bus dev fn : Nat)
    (options : String) : Option LaunchScript :=
  let device := findBoardDevice s.board bus dev fn
  let options := if options == "" then get_option device s.vm else options
  match s.vbdf_allocator.get_virtual_bdf device (some options) with
  | none => none
  | some (vbdf, a) =>
    let s := { s with vbdf_allocator := a }
    let s := s.add_dynamic_dm_parameter "add_passthrough_device"
      (passthruParamText vbdf bus dev fn options)
    some (if vbdf ≠ 2 then
        s.add_dynamic_dm_parameter "add_interrupt_storm_monitor" "10000 10 1 100"
      else s)

/-!  ## Free functions of the generator  -/

/-- Source: `cpu_id_to_lapic_id`: the first `apic_id` text of a `//processors//thread`
whose `cpu_id` equals the given cpu, absent (with a logged warning in the
source — the run continues) when no such thread defines one.  The
`vm_name` argument of the source only feeds the warning text and is
omitted. -/
def cpu_id_to_lapic_id (threads : List ProcessorThread) (cpu : String) : Option Nat :=
  ((threads.filter (fun t => t.cpu_id == cpu)).filterMap (fun t => t.apic_id)).head?

/-- Source: `get_slot_by_vbdf`: `int(vbdf.split(":")[1].split(".")[0], 16)` for a
present vbdf, `None` otherwise.  The outer `Option` models the crash on a
vbdf without a `:` (an `IndexError`) or with a malformed slot field (a
`ValueError`). -/
def get_slot_by_vbdf (vbdf : Option String) : Option (Option Nat) :=
  match vbdf with
  | none => some none
  | some s =>
    match (pySplit ':' s).drop 1 with
    | [] => none
    | seg :: _ => (pyIntHex ((pySplit '.' seg).headD "")).map some

/-- A lowercase hexadecimal digit, as matched by the character class
`[0-9a-f]` of the source's regex. -/
def isLowerHexDigit (c : Char) : Bool :=
  ('0' ≤ c && c ≤ '9') || ('a' ≤ c && c ≤ 'f')

/-- Digit value of a character known to be a hexadecimal digit. -/
def hexVal (c : Char) : Nat :=
  (hexDigitVal? c).getD 0

/-- Source: `re.match` of the source's pattern `([0-9a-f]{2}):([0-1][0-9a-f]).([0-7])`
against the start of the text, returning the three integer groups.  Note
that the pattern's `.` is *unescaped* — it matches any character except a
newline — and that `re.match` only anchors at the start, so trailing text
is permitted. -/
def bdf_match (s : String) : Option (Nat × Nat × Nat) :=
  match s.data with
  | c0 :: c1 :: c2 :: c3 :: c4 :: c5 :: c6 :: _ =>
    if isLowerHexDigit c0 && isLowerHexDigit c1 && c2 == ':' &&
        (c3 == '0' || c3 == '1') && isLowerHexDigit c4 && c5 != '\n' &&
        ('0' ≤ c6 && c6 ≤ '7') then
      some (hexVal c0 * 16 + hexVal c1, hexVal c3 * 16 + hexVal c4, hexVal c6)
    else none
  | _ => none

/-- Modelled from the spec: the pattern the specification describes for a
passthrough entry — exactly two hex digits, a colon, a digit in `[0,1]`
followed by a hex digit, a *literal dot*, and one octal digit, matching
the *whole* text.  Used to compare the specified pattern with the one the
code implements (`bdf_match`). -/
def strictBdfSpec (s : String) : Bool :=
  match s.data with
  | [c0, c1, c2, c3, c4, c5, c6] =>
    isLowerHexDigit c0 && isLowerHexDigit c1 && c2 == ':' &&
      (c3 == '0' || c3 == '1') && isLowerHexDigit c4 && c5 == '.' &&
      ('0' ≤ c6 && c6 ≤ '7')
  | _ => false

/-!  ## `generate_for_one_vm`, step by step in source order  -/

/-- The resolved controller ids of a cpu affinity list: the Python code
builds `set(cpus)` and keeps the non-`None` mappings (`set` is modelled by
`dedup`; the subsequent `sorted` makes the set's iteration order
immaterial). -/
def lapicIds (threads : List ProcessorThread) (cpus : List String) : List Nat :=
  cpus.dedup.filterMap (cpu_id_to_lapic_id threads)

/-- Source: `sorted(lapic_ids)`. -/
def sortedLapicIds (threads : List ProcessorThread) (cpus : List String) : List Nat :=
  List.insertionSort (fun a b => a ≤ b) (lapicIds threads cpus)

/-- The CPU-affinity step: emit `add_cpus` listing the sorted resolved
controller ids, or nothing if none resolves. -/
def add_cpus_step (threads : List ProcessorThread) (s : LaunchScript)
    (cpus : List String) : LaunchScript :=
  if (lapicIds threads cpus).isEmpty then s
  else
    s.add_dynamic_dm_parameter "add_cpus"
      (String.intercalate " " ((sortedLapicIds threads cpus).map toString))

/-- Loop body for one ivshmem region (`prefixStr` is `dm:/` or `hv:/`). -/
def ivshmem_dev_step (prefixStr : String) (s : LaunchScript) (r : IvshmemRegion) :
    Option LaunchScript := do
  let slot ← get_slot_by_vbdf r.vbdf
  let nameText ← r.name
  let sizeText ← r.size
  s.add_virtual_device "ivshmem" (slot.map PyVal.int)
    (prefixStr ++ pyStr nameText ++ "," ++ pyStr sizeText)

/-- Loop body for one (1-based index, vuart connection) pair. -/
def vuart_conn_step (vm_name : String) (s : LaunchScript) (p : Nat × VuartConnection) :
    Option LaunchScript :=
  if p.2.conn_type == some "pci" then do
    let vbdf := ((p.2.endpoints.filter (fun e => e.vm_name == vm_name)).filterMap
      (fun e => e.vbdf)).head?
    let slot ← get_slot_by_vbdf vbdf
    s.add_virtual_device "uart" (slot.map PyVal.int) ("vuart_idx:" ++ toString p.1)
  else some s

/-- Loop body for one `usb_dev` text. -/
def xhci_step (s : LaunchScript) (usb_dev : String) : Option LaunchScript :=
  s.add_virtual_device "xhci" none ((pySplit ' ' usb_dev).headD "")

/-- Loop body for one virtio input device. -/
def virtio_input_step (s : LaunchScript) (inp : VirtioInput) : Option LaunchScript :=
  match inp.backend_device_file, inp.id with
  | some f, some u => s.add_virtual_device "virtio-input" none (f ++ ",id:" ++ u)
  | some f, none => s.add_virtual_device "virtio-input" none f
  | none, _ => some s

/-- Loop body for one virtio console device. -/
def virtio_console_step (s : LaunchScript) (con : VirtioConsole) : Option LaunchScript :=
  let mask := if con.use_type == some "Virtio console" then "@" else ""
  match con.backend_type with
  | some bt =>
    if bt == "file" then
      s.add_virtual_device "virtio-console" none
        (mask ++ "file:file_port=" ++ pyStr con.output_file_path)
    else if bt == "tty" then
      s.add_virtual_device "virtio-console" none
        (mask ++ "tty:tty_port=" ++ pyStr con.tty_device_path)
    else if bt == "sock server" || bt == "sock client" then do
      let sock ← con.sock_file_path
      s.add_virtual_device "virtio-console" none
        ("socket:" ++ ((pySplit '.' (pyBasename sock)).headD "") ++ "=" ++ sock ++ ":" ++
          pyReplace bt "sock " "")
    else if bt == "pty" || bt == "stdio" then
      s.add_virtual_device "virtio-console" none (mask ++ bt ++ ":" ++ bt ++ "_port")
    else some s
  | none => some s

/-- Loop body for one virtio network device. -/
def virtio_network_step (vm_name : String) (s : LaunchScript) (net : VirtioNetwork) :
    Option LaunchScript := do
  let interface_name ← net.interface_name
  let params := pySplitMax1 ',' interface_name
  let tap_conf := "tap=" ++ params.headD ""
  let params := tap_conf :: params.tail
  let params :=
    if net.virtio_framework == some "Kernel based (Virtual Host)" then params ++ ["vhost"]
    else params
  let s := s.add_init_command "mac=$(cat /sys/class/net/e*/address)"
  let params := params ++ ["mac_seed=$\x7bmac:0:17\x7d-" ++ vm_name]
  s.add_virtual_device "virtio-net" none (String.intercalate "," params)

/-- Loop body for one virtio block device text. -/
def virtio_block_step (s : LaunchScript) (blk : String) : Option LaunchScript :=
  let params := pySplitMax1 ':' blk
  if params.length == 1 then
    s.add_virtual_device "virtio-blk" none blk
  else do
    let block_device := params.headD ""
    let rootfs_img := (params.drop 1).headD ""
    let var := "dir_" ++ pyBasename block_device
    let s := s.add_init_command (var ++ "=`mount_partition " ++ block_device ++ "`")
    let s' ← s.add_virtual_device "virtio-blk" none
      (pyPathJoin ("$\x7b" ++ var ++ "\x7d") rootfs_img)
    some (s'.add_deinit_command ("unmount_partition $\x7b" ++ var ++ "\x7d"))

/-- Loop body for one virtio GPU device. -/
def virtio_gpu_step (s : LaunchScript) (gpu : VirtioGpu) : Option LaunchScript :=
  let params := gpu.displays.foldl
    (fun ps d =>
      let ps :=
        if gpu.display_type == some "Window" then
          ps ++ ["geometry=" ++ pyStr d.window_dimensions ++ "+" ++
            pyStr d.horizontal_offset ++ "+" ++ pyStr d.vertical_offset]
        else ps
      if gpu.display_type == some "Full screen" then
        ps ++ ["geometry=fullscreen:" ++ pyStr d.monitor_id]
      else ps)
    []
  s.add_virtual_device "virtio-gpu" none (String.intercalate "," params)

/-- Loop body for one vsock cid text. -/
def vsock_step (s : LaunchScript) (v : String) : Option LaunchScript :=
  s.add_virtual_device "vhost-vsock" none ("cid=" ++ v)

/-- Loop body for one passthrough entry text: silently skip entries the
regex does not match, emit the device otherwise. -/
def passthru_step (s : LaunchScript) (entry : String) : Option LaunchScript :=
  match bdf_match entry with
  | none => some s
  | some (bus, dev, fn) => s.add_passthru_device bus dev fn ""

/-- The steps of `generate_for_one_vm` before the CPU-affinity parameter:
construction, the unconditional `probe_modules` init command, the Windows
flag, and the two VM descriptors. -/
def pre_cpu_state (board : Board) (doc : ScenarioDoc) (vm : VmScenario)
    (vm_name : String) : LaunchScript :=
  let s := LaunchScript.init board vm_name vm
  let s := s.add_init_command "probe_modules"
  let s := if vm.os_types.head? == some "Windows OS" then
      s.add_plain_dm_parameter "--windows"
    else s
  let s := s.add_vm_descriptor "vm_type" ("'" ++ vm.vm_type.getD "STANDARD_VM" ++ "'")
  s.add_vm_descriptor "scheduler" ("'" ++ pyStr doc.scheduler ++ "'")

/-- The LPC device step: every VM that is not an `RTVM` gets an emulated
LPC at the (string) vbdf `1:0`. -/
def lpc_step (vm : VmScenario) (s : LaunchScript) : Option LaunchScript :=
  if vm.vm_type != some "RTVM" then
    s.add_virtual_device "lpc" (some (PyVal.str "1:0")) ""
  else some s

/-- The console-vuart step: a PCI console vuart becomes a `uart` device
with index 0. -/
def console_vuart_step (vm : VmScenario) (s : LaunchScript) : Option LaunchScript :=
  if vm.console_vuart == some "PCI" then
    s.add_virtual_device "uart" none "vuart_idx:0"
  else some s

/-- The steps of `generate_for_one_vm` after the CPU-affinity parameter,
through the vuart connections (first half of the enumeration; the chain
is split in two so each half stays a short bind chain). -/
def post_cpu_body_a (doc : ScenarioDoc) (vm : VmScenario) (vm_name : String)
    (s : LaunchScript) : Option LaunchScript := do
  let s := s.add_plain_dm_parameter ("-m " ++ pyStr vm.memory_size ++ "M")
  -- The `--ssram` branch of the source compares an lxml element object
  -- (`eval_xpath(..., "//SSRAM_ENABLED")`) to the string "y"; in Python
  -- that comparison is always False, so the parameter is never emitted.
  let s := if vm.vbootloader == some "y" then
      s.add_plain_dm_parameter "--ovmf /usr/share/acrn/bios/OVMF.fd"
    else s
  let s ← lpc_step vm s
  let s := if vm.vuart0 == some "y" then s.add_plain_dm_parameter "-l com1,stdio" else s
  let s ← s.add_virtual_device "hostbridge" (some (PyVal.str "0:0")) ""
  let s ← (doc.ivshmem_regions.filter
      (fun r => r.provided_by == some "Device Model" && r.vm_names.contains vm_name)).foldlM
    (ivshmem_dev_step "dm:/") s
  let s ← (doc.ivshmem_regions.filter
      (fun r => r.provided_by == some "Hypervisor" && r.vm_names.contains vm_name)).foldlM
    (ivshmem_dev_step "hv:/") s
  let s ← console_vuart_step vm s
  let s ← (List.enumFrom 1 (doc.vuart_connections.filter
      (fun c => c.endpoints.any (fun e => e.vm_name == vm_name)))).foldlM
    (vuart_conn_step vm_name) s
  some s

/-- The remaining enumeration steps (xhci through the passthrough entries),
the real-time flags, and the logger-settings parameter. -/
def post_cpu_body_b (vm : VmScenario) (vm_name : String)
    (s : LaunchScript) : Option LaunchScript := do
  let s ← vm.usb_xhci.foldlM xhci_step s
  let s ← vm.virtio_inputs.foldlM virtio_input_step s
  let s ← vm.virtio_consoles.foldlM virtio_console_step s
  let s ← vm.virtio_networks.foldlM (virtio_network_step vm_name) s
  let s ← vm.virtio_blocks.foldlM virtio_block_step s
  let s ← vm.virtio_gpus.foldlM virtio_gpu_step s
  let s ← vm.vsocks.foldlM vsock_step s
  let s ← vm.pci_devs.foldlM passthru_step s
  let s := if vm.vm_type == some "RTVM" then
      let s := s.add_plain_dm_parameter "--rtvm"
      if vm.lapic_passthrough == some "y" then s.add_plain_dm_parameter "--lapic_pt" else s
    else s
  some (s.add_dynamic_dm_parameter "add_logger_settings" "console=4 kmsg=3 disk=5")

/-- The steps of `generate_for_one_vm` after the CPU-affinity parameter,
up to (and including) the logger-settings parameter, in source order. -/
def post_cpu_body (doc : ScenarioDoc) (vm : VmScenario) (vm_name : String)
    (s : LaunchScript) : Option LaunchScript := do
  let s ← post_cpu_body_a doc vm vm_name s
  post_cpu_body_b vm vm_name s

/-- Source: `generate_for_one_vm` up to (and including) the logger-settings
parameter, i.e. everything before the final VM-name token, assembled from
the stages above in source order.  The `vm_id` parameter of the source is
unused by the function body and omitted. -/
def generate_body (board : Board) (doc : ScenarioDoc) (vm : VmScenario)
    (vm_name : String) : Option LaunchScript :=
  post_cpu_body doc vm vm_name
    (add_cpus_step board.threads (pre_cpu_state board doc vm vm_name) vm.cpu_affinity)

/-- Source: `generate_for_one_vm`: the body above concluded by the VM name as the
final (append-if-absent) plain parameter. -/
def generate_for_one_vm (board : Board) (doc : ScenarioDoc) (vm : VmScenario) :
    Option LaunchScript :=
  let vm_name := vm.name.getD "ACRN Post-Launched VM"
  (generate_body board doc vm vm_name).map (fun s => s.add_plain_dm_parameter vm_name)

/-!  ## `main`  -/

/-- Outcome of `os.mkdir(out_dir)` as the source distinguishes it:
created, `FileExistsError` with a directory at the path (tolerated),
`FileExistsError` with a plain file at the path (fatal), or any other
exception (fatal). -/
inductive MkdirOutcome where
  | ok
  | existsDir
  | existsFile
  | otherError
deriving DecidableEq, Repr

/-- The board cpu-id texts not claimed by pre-launched VMs (the list
`main` converts with `int` and sorts into `cpus_for_sos`; the sort and
the resulting service-VM cpu table do not influence the exit status and
are not tracked further). -/
def sos_cpu_texts (board : Board) (scenario : Scenario) : List String :=
  (board.threads.map (fun t => t.cpu_id)).filter
    (fun x => !scenario.pre_launched_cpu_ids.contains x)

/-- The ids of the post-launched VMs selected for generation: all of them
for `user_vm_id = 0`, otherwise the single id `user_vm_id + service_vm_id`. -/
def selected_post_vm_ids (scenario : Scenario) (user_vm_id svid : Int) : List Int :=
  if user_vm_id == 0 then scenario.post_vms.map (fun p => p.1)
  else [user_vm_id + svid]

/-- The generation loop of `main` over the post-launched VMs, keeping only
whether every selected VM generated successfully. -/
def run_post_vms (board : Board) (doc : ScenarioDoc) (ids : List Int)
    (l : List (Int × VmScenario)) : Option Unit :=
  l.foldlM
    (fun x p =>
      if ids.contains p.1 then
        (generate_for_one_vm board doc p.2).map (fun _ => ())
      else some x)
    ()

/-- Source: `main`, with document parsing and file writing abstracted away: the
mkdir outcome is an input, the generated scripts are discarded.  `none`
models an uncaught exception (the `int(None)` when no service VM exists
and the check above it did not fire, a malformed board cpu id, or a
failing generation pass), which also yields a non-zero process status via
the traceback. -/
def main (board : Board) (scenario : Scenario) (user_vm_id : Int)
    (mkdir : MkdirOutcome) : Option Int :=
  if scenario.service_vm_id.isNone ∧ 0 < scenario.post_vms.length then some 1
  else do
    let service_vm_id ← scenario.service_vm_id
    let _cpus_for_sos ← (sos_cpu_texts board scenario).mapM pyIntDec
    match mkdir with
    | MkdirOutcome.existsFile => some 1
    | MkdirOutcome.otherError => some 1
    | _ => do
      let _ ← run_post_vms board scenario.doc
        (selected_post_vm_ids scenario user_vm_id service_vm_id) scenario.post_vms
      some 0

/-- Run a sequence of allocator calls, collecting the slots returned by
pool draws (allocations *not* taken through the GPU shortcut).  `none`
models pool exhaustion. -/
def runOps (a : VirtualBDFAllocator) : List AllocOp → Option (VirtualBDFAllocator × List Nat)
  | [] => some (a, [])
  | AllocOp.alloc dev opts :: rest =>
    match a.get_virtual_bdf dev opts with
    | none => none
    | some (slot, a') =>
      match runOps a' rest with
      | none => none
      | some (aE, ds) =>
        some (aE, if isGpuShortcut dev opts then ds else slot :: ds)
  | AllocOp.release slot :: rest => runOps (a.remove_virtual_bdf slot) rest

/-!  ## Fixtures used by concrete witnesses and counterexamples  -/

/-- A board with no threads and no PCI devices. -/
def emptyBoard : Board := ⟨[], []⟩

/-- A scenario document with no scheduler, connections or regions. -/
def emptyDoc : ScenarioDoc := ⟨none, [], []⟩

/-- A minimal post-launched VM scenario. -/
def trivialVm : VmScenario :=
  { name := some "vm1", os_types := [], vm_type := none, cpu_affinity := [],
    memory_size := some "2048", vbootloader := none, vuart0 := none,
    console_vuart := none, usb_xhci := [], virtio_inputs := [],
    virtio_consoles := [], virtio_networks := [], virtio_blocks := [],
    virtio_gpus := [], vsocks := [], pci_devs := [], lapic_passthrough := none,
    ptm_y := false }

/-- A real-time VM whose name collides with the `--rtvm` flag parameter. -/
def rtvmNameCex : VmScenario :=
  { trivialVm with
    name := some "--rtvm", vm_type := some "RTVM", memory_size := some "1024" }

/-- A board defining cpus 0..3 with distinct controller ids. -/
def board4 : Board :=
  ⟨[⟨"1", some 16⟩, ⟨"3", some 48⟩, ⟨"0", some 0⟩, ⟨"2", some 32⟩], []⟩

/-- Source: `trivialVm` with cpu affinity {3, 1} (with a duplicate entry). -/
def vmAffinity : VmScenario := { trivialVm with cpu_affinity := ["3", "1", "3"] }

/-- A fresh launch script over the empty board. -/
def freshScript : LaunchScript := LaunchScript.init emptyBoard "vm" trivialVm

/-- A scenario with neither a service VM nor post-launched VMs. -/
def scNoSvcNoPost : Scenario := ⟨none, [], [], emptyDoc⟩

/-- A scenario with a post-launched VM but no service VM. -/
def scNoSvcPost : Scenario := ⟨none, [], [(1, trivialVm)], emptyDoc⟩

/-- A scenario with a service VM (id 0) and one post-launched VM. -/
def scSvcPost : Scenario := ⟨some 0, [], [(1, trivialVm)], emptyDoc⟩

/-- Source: "The parameter sequence of `s'` extends that of `s` by appending":
how every mutation of the enumeration pass changes `dm_parameters`. -/
def ParamsExtends (s s' : LaunchScript) : Prop :=
  ∃ u, s'.dm_parameters = s.dm_parameters ++ u

/-- The interrupt-storm-monitor parameter text. -/
def stormParam : String :=
  dynFullOpt "add_interrupt_storm_monitor" "10000 10 1 100"

/-- The virtio polling parameter text. -/
def pollParam : String := "--virtio_poll 1000000"

/-- Source: `trivialVm` as a real-time VM. -/
def rtvmVm : VmScenario := { trivialVm with vm_type := some "RTVM" }

/-- A fresh launch script for a real-time VM. -/
def rtvmScript : LaunchScript := LaunchScript.init emptyBoard "vm" rtvmVm

/-- The state after `freshScript.add_passthru_device 0 0 0 ""`: slot 3
drawn, the passthrough parameter and the storm monitor emitted. -/
def ptDemoState : LaunchScript :=
  { freshScript with
    dm_parameters := [dynFullOpt "add_passthrough_device" "3 0000:00:00.0 ", stormParam],
    vbdf_allocator := ⟨List.range' 4 26⟩ }

/-- The state after `rtvmScript.add_virtual_device "virtio-blk" none "x"`:
the polling parameter, slot 3 drawn, the device parameter. -/
def virtioDemoState : LaunchScript :=
  { rtvmScript with
    dm_parameters := [pollParam, dynFullOpt "add_virtual_device" "3 virtio-blk x"],
    vbdf_allocator := ⟨List.range' 4 26⟩ }

/-- The script generated for `vmAffinity` on `board4`. -/
def c6DemoScript : LaunchScript :=
  (generate_for_one_vm board4 emptyDoc vmAffinity).getD freshScript

/-- The script generated for `trivialVm` on the empty board. -/
def c8DemoScript : LaunchScript :=
  (generate_for_one_vm emptyBoard emptyDoc trivialVm).getD freshScript

/-!  # Theorems  -/

/-!  ### Generic helper lemmas  -/

theorem paramsExtends_refl (s : LaunchScript) : ParamsExtends s s :=
  ⟨[], (List.append_nil _).symm⟩

theorem paramsExtends_trans {s t u : LaunchScript}
    (h1 : ParamsExtends s t) (h2 : ParamsExtends t u) : ParamsExtends s u := by
  obtain ⟨a, ha⟩ := h1
  obtain ⟨b, hb⟩ := h2
  exact ⟨a ++ b, by rw [hb, ha, List.append_assoc]⟩

theorem paramsExtends_mem {s s' : LaunchScript} (h : ParamsExtends s s')
    {t : String} (ht : t ∈ s.dm_parameters) : t ∈ s'.dm_parameters := by
  obtain ⟨u, hu⟩ := h
  rw [hu]
  exact List.mem_append_left _ ht

/-!  ### Allocator characterization (claims C1 to C3)  -/

/-- Source: `get_virtual_bdf` in closed form: the GPU shortcut or a pool pop. -/
theorem get_virtual_bdf_eq (a : VirtualBDFAllocator) (dev : Option BoardPciDevice)
    (opts : Option String) :
    a.get_virtual_bdf dev opts =
      if isGpuShortcut dev opts then some (2, a)
      else
        match a.free_slots with
        | [] => none
        | s :: rest => some (s, ⟨rest⟩) := by
  unfold VirtualBDFAllocator.get_virtual_bdf isGpuShortcut
  cases h1 : ((dev.bind fun d => d.class_code) == some "0x030000") with
  | true => simp [h1]
  | false =>
    cases h2 : hasIgd opts with
    | true => simp [h1, h2]
    | false => simp [h1, h2]

theorem runOps_nil (a : VirtualBDFAllocator) : runOps a [] = some (a, []) := rfl

theorem runOps_release (a : VirtualBDFAllocator) (slot : Nat) (rest : List AllocOp) :
    runOps a (AllocOp.release slot :: rest) = runOps (a.remove_virtual_bdf slot) rest := rfl

theorem runOps_alloc (a : VirtualBDFAllocator) (dev : Option BoardPciDevice)
    (opts : Option String) (rest : List AllocOp) :
    runOps a (AllocOp.alloc dev opts :: rest) =
      match a.get_virtual_bdf dev opts with
      | none => none
      | some (slot, a') =>
        match runOps a' rest with
        | none => none
        | some (aE, ds) =>
          some (aE, if isGpuShortcut dev opts then ds else slot :: ds) := rfl

/-- Main allocator invariant: along any successful run, the pool only
shrinks (as a sublist), every collected pool draw was a member of the
starting pool, and — when the starting pool is strictly sorted — the
draws come out in strictly increasing order and are gone from the final
pool. -/
theorem runOps_spec (ops : List AllocOp) :
    ∀ (a aE : VirtualBDFAllocator) (ds : List Nat),
      runOps a ops = some (aE, ds) →
      aE.free_slots.Sublist a.free_slots ∧
      (∀ d ∈ ds, d ∈ a.free_slots) ∧
      (List.Sorted (· < ·) a.free_slots →
        List.Sorted (· < ·) ds ∧ ∀ d ∈ ds, d ∉ aE.free_slots) := by
  induction ops with
  | nil =>
    intro a aE ds h
    simp only [runOps_nil, Option.some_inj, Prod.mk.injEq] at h
    obtain ⟨rfl, rfl⟩ := h
    exact ⟨List.Sublist.refl _, by simp, fun _ => ⟨List.sorted_nil, by simp⟩⟩
  | cons op rest ih =>
    intro a aE ds h
    cases op with
    | release slot =>
      rw [runOps_release] at h
      obtain ⟨hsub, hmem, hsorted⟩ := ih _ _ _ h
      have herase : (a.remove_virtual_bdf slot).free_slots.Sublist a.free_slots :=
        List.erase_sublist _ _
      refine ⟨hsub.trans herase, fun d hd => herase.subset (hmem d hd), fun hs => ?_⟩
      exact hsorted (List.Pairwise.sublist herase hs)
    | alloc dev opts =>
      rw [runOps_alloc] at h
      split at h
      · exact absurd h (by simp)
      · rename_i slot a' hget
        split at h
        · exact absurd h (by simp)
        · rename_i aE' ds' hrec
          simp only [Option.some_inj, Prod.mk.injEq] at h
          obtain ⟨rfl, hds⟩ := h
          by_cases hg : isGpuShortcut dev opts = true
          · rw [get_virtual_bdf_eq, if_pos hg] at hget
            simp only [Option.some_inj, Prod.mk.injEq] at hget
            obtain ⟨rfl, rfl⟩ := hget
            rw [if_pos hg] at hds
            subst hds
            exact ih _ _ _ hrec
          · rw [get_virtual_bdf_eq, if_neg hg] at hget
            rw [if_neg hg] at hds
            subst hds
            cases hpool : a.free_slots with
            | nil => rw [hpool] at hget; cases hget
            | cons s0 t =>
              rw [hpool] at hget
              simp only [Option.some_inj, Prod.mk.injEq] at hget
              obtain ⟨rfl, rfl⟩ := hget
              obtain ⟨hsub, hmem, hsorted⟩ := ih _ _ _ hrec
              refine ⟨hsub.trans (List.sublist_cons_self _ _), ?_, ?_⟩
              · intro d hd
                rcases List.mem_cons.mp hd with rfl | hd'
                · exact List.mem_cons_self _ _
                · exact List.mem_cons_of_mem _ (hmem d hd')
              · intro hs
                obtain ⟨hall, ht⟩ := List.sorted_cons.mp hs
                obtain ⟨hds', hgone⟩ := hsorted ht
                constructor
                · exact List.sorted_cons.mpr ⟨fun b hb => hall b (hmem b hb), hds'⟩
                · intro d hd hdmem
                  rcases List.mem_cons.mp hd with rfl | hd'
                  · exact absurd (hall d (hsub.subset hdmem)) (lt_irrefl d)
                  · exact hgone d hd' hdmem

/-- Claim C1: across any sequence of allocate/release calls on a fresh
per-VM allocator, the pool draws are pairwise distinct (indeed strictly
increasing), the free pool only shrinks, a drawn slot is never drawn again
by any continuation of the run, and a slot removed by `remove_virtual_bdf`
(an explicit release or a caller-requested reservation) is never returned
by any later pool draw. -/
theorem C1_allocator_monotonic (ops : List AllocOp) (aE : VirtualBDFAllocator)
    (ds : List Nat) (h : runOps VirtualBDFAllocator.init ops = some (aE, ds)) :
    List.Sorted (· < ·) ds ∧ ds.Nodup ∧
    aE.free_slots.Sublist VirtualBDFAllocator.init.free_slots ∧
    (∀ d ∈ ds, ∀ ops2 a2 ds2, runOps aE ops2 = some (a2, ds2) → d ∉ ds2) ∧
    (∀ slot ops2 a2 ds2,
      runOps (aE.remove_virtual_bdf slot) ops2 = some (a2, ds2) → slot ∉ ds2) := by
  have hinit : List.Sorted (· < ·) VirtualBDFAllocator.init.free_slots := by decide
  have hnodup_init : VirtualBDFAllocator.init.free_slots.Nodup := by decide
  obtain ⟨hsub, _hmem, hsorted⟩ := runOps_spec ops _ _ _ h
  obtain ⟨hds, hgone⟩ := hsorted hinit
  have haE_nodup : aE.free_slots.Nodup := List.Nodup.sublist hsub hnodup_init
  refine ⟨hds, hds.imp (fun hlt => ne_of_lt hlt), hsub, ?_, ?_⟩
  · intro d hd ops2 a2 ds2 h2 hd2
    exact hgone d hd ((runOps_spec ops2 _ _ _ h2).2.1 d hd2)
  · intro slot ops2 a2 ds2 h2 hd2
    have : slot ∈ (aE.remove_virtual_bdf slot).free_slots :=
      (runOps_spec ops2 _ _ _ h2).2.1 slot hd2
    exact List.Nodup.not_mem_erase haE_nodup this

/-- Witness for C1 at a concrete run: allocate, release slot 5, allocate
again; the draws are 3 then 4. -/
theorem C1_witness :
    List.Sorted (· < ·) [3, 4] ∧ ([3, 4] : List Nat).Nodup ∧
    (VirtualBDFAllocator.mk (List.range' 6 24)).free_slots.Sublist
      VirtualBDFAllocator.init.free_slots ∧
    (∀ d ∈ [3, 4], ∀ ops2 a2 ds2,
      runOps (VirtualBDFAllocator.mk (List.range' 6 24)) ops2 = some (a2, ds2) →
      d ∉ ds2) ∧
    (∀ slot ops2 a2 ds2,
      runOps ((VirtualBDFAllocator.mk (List.range' 6 24)).remove_virtual_bdf slot) ops2 =
        some (a2, ds2) → slot ∉ ds2) :=
  C1_allocator_monotonic
    [AllocOp.alloc none none, AllocOp.release 5, AllocOp.alloc none none]
    ⟨List.range' 6 24⟩ [3, 4] (by decide)

/-- Claim C2 (code bug): a fresh allocator's free pool is
`range(3, 30) = {3, ..., 29}` — slot 30 is missing, although the code's
own comment reserves only slots 0, 1, 2 and 31 and the spec says the pool
is 3..30 inclusive.  The evaluation also shows that slots 0, 1, 2 and 31
are indeed not in the pool. -/
theorem C2_free_pool_eval :
    VirtualBDFAllocator.init.free_slots = List.range' 3 27 ∧
    (30 : Nat) ∉ VirtualBDFAllocator.init.free_slots ∧
    (∀ n ∈ VirtualBDFAllocator.init.free_slots, 3 ≤ n ∧ n ≤ 29) ∧
    (0 : Nat) ∉ VirtualBDFAllocator.init.free_slots ∧
    (1 : Nat) ∉ VirtualBDFAllocator.init.free_slots ∧
    (2 : Nat) ∉ VirtualBDFAllocator.init.free_slots ∧
    (31 : Nat) ∉ VirtualBDFAllocator.init.free_slots := by
  refine ⟨rfl, by decide, by decide, by decide, by decide, by decide, by decide⟩

/-- Claim C3: whenever the device context carries class code `0x030000`
or the options carry the `igd` marker, `get_virtual_bdf` returns slot 2
with the pool untouched — for every pool state, 2 in the pool or not —
and calling it again from the returned state gives the same answer. -/
theorem C3_gpu_shortcut (a : VirtualBDFAllocator) (dev : Option BoardPciDevice)
    (opts : Option String)
    (h : (dev.bind fun d => d.class_code) = some "0x030000" ∨ hasIgd opts = true) :
    a.get_virtual_bdf dev opts = some (2, a) ∧
    ((a.get_virtual_bdf dev opts).bind fun p => p.2.get_virtual_bdf dev opts) =
      some (2, a) := by
  have hgpu : isGpuShortcut dev opts = true := by
    unfold isGpuShortcut
    rcases h with h | h
    · simp [h]
    · simp [h]
  have h1 : a.get_virtual_bdf dev opts = some (2, a) := by
    rw [get_virtual_bdf_eq, if_pos hgpu]
  exact ⟨h1, by simp [h1]⟩

/-- Witness for C3: with an *empty* pool (slot 2 certainly not a member),
`igd` options still give slot 2 and the pool stays empty, twice over. -/
theorem C3_witness :
    (VirtualBDFAllocator.mk []).get_virtual_bdf none (some "igd") =
      some (2, ⟨[]⟩) ∧
    (((VirtualBDFAllocator.mk []).get_virtual_bdf none (some "igd")).bind
      fun p => p.2.get_virtual_bdf none (some "igd")) = some (2, ⟨[]⟩) :=
  C3_gpu_shortcut ⟨[]⟩ none (some "igd") (Or.inr (by decide))

/-!  ### Command-stream builder lemmas (claim C7 and support)  -/

theorem nodup_append_singleton {α} {l : List α} {a : α}
    (h : l.Nodup) (ha : a ∉ l) : (l ++ [a]).Nodup := by
  simp [List.nodup_append, h, ha]

theorem mem_getLast?_or_dropLast {α} {l : List α} {a : α} (h : a ∈ l) :
    l.getLast? = some a ∨ a ∈ l.dropLast := by
  induction l with
  | nil => cases h
  | cons b t ih =>
    cases t with
    | nil =>
      left
      rcases List.mem_singleton.mp h with rfl
      rfl
    | cons c u =>
      rcases List.mem_cons.mp h with rfl | h'
      · right
        simp [List.dropLast]
      · rcases ih h' with hl | hd
        · left
          rwa [List.getLast?_cons_cons]
        · right
          simp [List.dropLast, hd]

theorem add_plain_params (s : LaunchScript) (t : String) :
    (s.add_plain_dm_parameter t).dm_parameters =
      if t ∈ s.dm_parameters then s.dm_parameters else s.dm_parameters ++ [t] := by
  by_cases h : t ∈ s.dm_parameters <;>
    simp [LaunchScript.add_plain_dm_parameter, h]

theorem add_dynamic_params (s : LaunchScript) (c o : String) :
    (s.add_dynamic_dm_parameter c o).dm_parameters =
      if dynFullOpt c o ∈ s.dm_parameters then s.dm_parameters
      else s.dm_parameters ++ [dynFullOpt c o] := by
  by_cases h : dynFullOpt c o ∈ s.dm_parameters <;>
    simp [LaunchScript.add_dynamic_dm_parameter, h]

theorem add_init_params (s : LaunchScript) (t : String) :
    (s.add_init_command t).dm_parameters = s.dm_parameters := by
  by_cases h : t ∈ s.init_commands <;> simp [LaunchScript.add_init_command, h]

theorem add_deinit_params (s : LaunchScript) (t : String) :
    (s.add_deinit_command t).dm_parameters = s.dm_parameters := by
  by_cases h : t ∈ s.deinit_commands <;> simp [LaunchScript.add_deinit_command, h]

theorem add_plain_mem (s : LaunchScript) (t : String) :
    t ∈ (s.add_plain_dm_parameter t).dm_parameters := by
  rw [add_plain_params]
  by_cases h : t ∈ s.dm_parameters <;> simp [h]

theorem add_dynamic_mem (s : LaunchScript) (c o : String) :
    dynFullOpt c o ∈ (s.add_dynamic_dm_parameter c o).dm_parameters := by
  rw [add_dynamic_params]
  by_cases h : dynFullOpt c o ∈ s.dm_parameters <;> simp [h]

theorem add_plain_nodup (s : LaunchScript) (t : String)
    (h : s.dm_parameters.Nodup) :
    (s.add_plain_dm_parameter t).dm_parameters.Nodup := by
  rw [add_plain_params]
  by_cases ht : t ∈ s.dm_parameters
  · simpa [ht] using h
  · simpa [ht] using nodup_append_singleton h ht

theorem add_dynamic_nodup (s : LaunchScript) (c o : String)
    (h : s.dm_parameters.Nodup) :
    (s.add_dynamic_dm_parameter c o).dm_parameters.Nodup := by
  rw [add_dynamic_params]
  by_cases ht : dynFullOpt c o ∈ s.dm_parameters
  · simpa [ht] using h
  · simpa [ht] using nodup_append_singleton h ht

theorem add_plain_extends (s : LaunchScript) (t : String) :
    ParamsExtends s (s.add_plain_dm_parameter t) := by
  rw [ParamsExtends, add_plain_params]
  by_cases h : t ∈ s.dm_parameters
  · exact ⟨[], by simp [h]⟩
  · exact ⟨[t], by simp [h]⟩

theorem add_dynamic_extends (s : LaunchScript) (c o : String) :
    ParamsExtends s (s.add_dynamic_dm_parameter c o) := by
  rw [ParamsExtends, add_dynamic_params]
  by_cases h : dynFullOpt c o ∈ s.dm_parameters
  · exact ⟨[], by simp [h]⟩
  · exact ⟨[dynFullOpt c o], by simp [h]⟩

/-- Claim C7: the four append-if-absent mutators are idempotent (calling
one twice with the same text is the same state transformation as calling
it once), they only ever append (first-insertion order is preserved), and
— over the duplicate-free sequences the builder maintains — the text ends
up with exactly one occurrence. -/
theorem C7_idempotent_append (s : LaunchScript) (t c o : String) :
    ((s.add_plain_dm_parameter t).add_plain_dm_parameter t =
      s.add_plain_dm_parameter t) ∧
    ((s.add_dynamic_dm_parameter c o).add_dynamic_dm_parameter c o =
      s.add_dynamic_dm_parameter c o) ∧
    ((s.add_init_command t).add_init_command t = s.add_init_command t) ∧
    ((s.add_deinit_command t).add_deinit_command t = s.add_deinit_command t) ∧
    (∃ u, (s.add_plain_dm_parameter t).dm_parameters = s.dm_parameters ++ u) ∧
    (∃ u, (s.add_dynamic_dm_parameter c o).dm_parameters = s.dm_parameters ++ u) ∧
    (∃ u, (s.add_init_command t).init_commands = s.init_commands ++ u) ∧
    (∃ u, (s.add_deinit_command t).deinit_commands = s.deinit_commands ++ u) ∧
    (s.dm_parameters.Nodup →
      (s.add_plain_dm_parameter t).dm_parameters.count t = 1 ∧
      (s.add_dynamic_dm_parameter c o).dm_parameters.count (dynFullOpt c o) = 1 ∧
      (s.add_plain_dm_parameter t).dm_parameters.Nodup) ∧
    (s.init_commands.Nodup → (s.add_init_command t).init_commands.count t = 1) ∧
    (s.deinit_commands.Nodup →
      (s.add_deinit_command t).deinit_commands.count t = 1) := by
  refine ⟨?_, ?_, ?_, ?_, ?_, ?_, ?_, ?_, ?_, ?_, ?_⟩
  · by_cases h : t ∈ s.dm_parameters
    · simp [LaunchScript.add_plain_dm_parameter, h]
    · simp [LaunchScript.add_plain_dm_parameter, h]
  · by_cases h : dynFullOpt c o ∈ s.dm_parameters
    · simp [LaunchScript.add_dynamic_dm_parameter, h]
    · simp [LaunchScript.add_dynamic_dm_parameter, h]
  · by_cases h : t ∈ s.init_commands
    · simp [LaunchScript.add_init_command, h]
    · simp [LaunchScript.add_init_command, h]
  · by_cases h : t ∈ s.deinit_commands
    · simp [LaunchScript.add_deinit_command, h]
    · simp [LaunchScript.add_deinit_command, h]
  · exact add_plain_extends s t
  · exact add_dynamic_extends s c o
  · by_cases h : t ∈ s.init_commands
    · exact ⟨[], by simp [LaunchScript.add_init_command, h]⟩
    · exact ⟨[t], by simp [LaunchScript.add_init_command, h]⟩
  · by_cases h : t ∈ s.deinit_commands
    · exact ⟨[], by simp [LaunchScript.add_deinit_command, h]⟩
    · exact ⟨[t], by simp [LaunchScript.add_deinit_command, h]⟩
  · intro hnd
    refine ⟨?_, ?_, add_plain_nodup s t hnd⟩
    · exact List.count_eq_one_of_mem (add_plain_nodup s t hnd) (add_plain_mem s t)
    · exact List.count_eq_one_of_mem (add_dynamic_nodup s c o hnd)
        (add_dynamic_mem s c o)
  · intro hnd
    by_cases h : t ∈ s.init_commands
    · simp only [LaunchScript.add_init_command, if_pos h]
      exact List.count_eq_one_of_mem hnd h
    · simp only [LaunchScript.add_init_command, if_neg h]
      exact List.count_eq_one_of_mem (nodup_append_singleton hnd h) (by simp)
  · intro hnd
    by_cases h : t ∈ s.deinit_commands
    · simp only [LaunchScript.add_deinit_command, if_pos h]
      exact List.count_eq_one_of_mem hnd h
    · simp only [LaunchScript.add_deinit_command, if_neg h]
      exact List.count_eq_one_of_mem (nodup_append_singleton hnd h) (by simp)

/-- Witness for C7 at a concrete state: each idempotence equation and
the exact-count conclusion on a fresh (duplicate-free) script. -/
theorem C7_witness :
    ((freshScript.add_plain_dm_parameter "-m 1M").add_plain_dm_parameter "-m 1M" =
      freshScript.add_plain_dm_parameter "-m 1M") ∧
    (freshScript.add_plain_dm_parameter "-m 1M").dm_parameters.count "-m 1M" = 1 :=
  ⟨(C7_idempotent_append freshScript "-m 1M" "c" "o").1,
    ((C7_idempotent_append freshScript "-m 1M" "c" "o").2.2.2.2.2.2.2.2.1
      (by decide)).1⟩

/-!  ### Shape of dynamic parameter texts  -/

theorem dynFullOpt_data (c o : String) :
    (dynFullOpt c o).data =
      '`' :: (stripList (padRight c 40 ++ " " ++ o).data ++ ['`']) := rfl

theorem dynFullOpt_head (c o : String) :
    (dynFullOpt c o).data.head? = some '`' := by
  rw [dynFullOpt_data]
  rfl

/-- A dynamic parameter (which starts with a backquote) never equals a
text that does not start with one. -/
theorem dynFullOpt_ne_of_head {t : String} (c o : String)
    (h : t.data.head? ≠ some '`') : dynFullOpt c o ≠ t :=
  fun he => h (he ▸ dynFullOpt_head c o)

theorem rstrip_cons_not_space {c : Char} (h : isPySpace c = false) (l : List Char) :
    rstripList (c :: l) = c :: rstripList l := by
  unfold rstripList
  rw [List.reverse_cons, List.dropWhile_append]
  by_cases he : ((l.reverse.dropWhile isPySpace).isEmpty : Bool) = true
  · rw [if_pos he]
    rw [List.isEmpty_iff] at he
    rw [he]
    simp [List.dropWhile_cons, h]
  · rw [if_neg he]
    rw [List.reverse_append]
    rfl

theorem strip_cons_not_space {c : Char} (h : isPySpace c = false) (l : List Char) :
    stripList (c :: l) = c :: rstripList l := by
  unfold stripList
  rw [List.dropWhile_cons, h]
  simp only [Bool.false_eq_true, if_false]
  exact rstrip_cons_not_space h l

/-- The first six characters of a passthrough parameter. -/
theorem dyn_pt_prefix_chars (o : String) :
    (dynFullOpt "add_passthrough_device" o).data.take 6 = "`add_p".data := by
  rw [dynFullOpt_data]
  rw [show (padRight "add_passthrough_device" 40 ++ " " ++ o).data =
      'a' :: 'd' :: 'd' :: '_' :: 'p' ::
        ("assthrough_device".data ++ List.replicate 18 ' ' ++ [' '] ++ o.data) from rfl]
  rw [strip_cons_not_space (by decide), rstrip_cons_not_space (by decide),
    rstrip_cons_not_space (by decide), rstrip_cons_not_space (by decide),
    rstrip_cons_not_space (by decide)]
  rfl

/-- A passthrough parameter is never the storm-monitor parameter,
whatever its option text. -/
theorem dyn_pt_ne_storm (o : String) :
    dynFullOpt "add_passthrough_device" o ≠
      dynFullOpt "add_interrupt_storm_monitor" "10000 10 1 100" := by
  intro heq
  have h1 := dyn_pt_prefix_chars o
  rw [heq] at h1
  have h2 : (dynFullOpt "add_interrupt_storm_monitor" "10000 10 1 100").data.take 6 =
      "`add_i".data := by decide
  rw [h2] at h1
  exact absurd h1 (by decide)

/-!  ### `add_virtual_device` and `add_passthru_device` characterized  -/

theorem params_set_allocator (s : LaunchScript) (a : VirtualBDFAllocator) :
    ({ s with vbdf_allocator := a } : LaunchScript).dm_parameters =
      s.dm_parameters := rfl

/-- Any successful `add_virtual_device` call produces the parameters of:
maybe the polling parameter, then the device's own dynamic parameter for
*some* slot text. -/
theorem add_virtual_device_params (s : LaunchScript) (kind : String)
    (vbdf : Option PyVal) (opts : String) (s' : LaunchScript)
    (h : s.add_virtual_device kind vbdf opts = some s') :
    ∃ slotText : String,
      s'.dm_parameters =
        ((virtioPollStep s kind).add_dynamic_dm_parameter "add_virtual_device"
          (slotText ++ " " ++ kind ++ " " ++ opts)).dm_parameters := by
  simp only [LaunchScript.add_virtual_device] at h
  cases vbdf with
  | some v =>
    simp only [Option.some_inj] at h
    refine ⟨pyValStr v, ?_⟩
    rw [← h, add_dynamic_params, add_dynamic_params]
  | none =>
    rw [get_virtual_bdf_eq, if_neg (by decide)] at h
    cases hpool : (virtioPollStep s kind).vbdf_allocator.free_slots with
    | nil => rw [hpool] at h; exact absurd h (by simp)
    | cons n rest =>
      rw [hpool] at h
      simp only [Option.some_inj] at h
      refine ⟨toString n, ?_⟩
      rw [← h, add_dynamic_params, add_dynamic_params]

/-- Any successful `add_passthru_device` call: some slot `vbdf` and some
resolved option text `o2` exist such that the device's parameter is in
the result, and either the GPU shortcut case (slot 2, storm-monitor
membership untouched) or the ordinary case (storm monitor present, and —
when neither parameter pre-existed — both appended in order). -/
theorem add_passthru_spec (s : LaunchScript) (bus dev fn : Nat) (opts : String)
    (s' : LaunchScript) (h : s.add_passthru_device bus dev fn opts = some s') :
    ∃ (vbdf : Nat) (o2 : String),
      dynFullOpt "add_passthrough_device" (passthruParamText vbdf bus dev fn o2) ∈
        s'.dm_parameters ∧
      ((vbdf = 2 ∧
        (stormParam ∈ s'.dm_parameters ↔ stormParam ∈ s.dm_parameters)) ∨
       (vbdf ≠ 2 ∧ stormParam ∈ s'.dm_parameters ∧
        (stormParam ∉ s.dm_parameters →
          dynFullOpt "add_passthrough_device" (passthruParamText vbdf bus dev fn o2) ∉
            s.dm_parameters →
          s'.dm_parameters = s.dm_parameters ++
            [dynFullOpt "add_passthrough_device" (passthruParamText vbdf bus dev fn o2),
             stormParam]))) := by
  simp only [LaunchScript.add_passthru_device] at h
  set o2 := (if (opts == "") = true then
      get_option (findBoardDevice s.board bus dev fn) s.vm
    else opts) with ho2
  cases hget : s.vbdf_allocator.get_virtual_bdf
      (findBoardDevice s.board bus dev fn) (some o2) with
  | none => rw [hget] at h; exact absurd h (by simp)
  | some p =>
    obtain ⟨vbdf, a⟩ := p
    rw [hget] at h
    simp only [Option.some_inj] at h
    subst h
    simp only [stormParam]
    refine ⟨vbdf, o2, ?_, ?_⟩
    · by_cases hv : vbdf ≠ 2
      · rw [if_pos hv]
        exact paramsExtends_mem (add_dynamic_extends _ _ _) (add_dynamic_mem _ _ _)
      · rw [if_neg hv]
        exact add_dynamic_mem _ _ _
    · by_cases hv : vbdf = 2
      · left
        refine ⟨hv, ?_⟩
        rw [if_neg (by simp [hv])]
        rw [add_dynamic_params, params_set_allocator]
        by_cases hmem : dynFullOpt "add_passthrough_device"
            (passthruParamText vbdf bus dev fn o2) ∈ s.dm_parameters
        · rw [if_pos hmem]
        · rw [if_neg hmem]
          constructor
          · intro hst
            rcases List.mem_append.mp hst with hst | hst
            · exact hst
            · exact absurd (List.mem_singleton.mp hst).symm (dyn_pt_ne_storm _)
          · intro hst
            exact List.mem_append_left _ hst
      · right
        refine ⟨hv, ?_, ?_⟩
        · rw [if_pos hv]
          exact add_dynamic_mem _ _ _
        · intro hstorm hpt
          rw [if_pos hv]
          rw [add_dynamic_params, add_dynamic_params, params_set_allocator,
            if_neg hpt]
          have hns : dynFullOpt "add_interrupt_storm_monitor" "10000 10 1 100" ∉
              s.dm_parameters ++
                [dynFullOpt "add_passthrough_device"
                  (passthruParamText vbdf bus dev fn o2)] := by
            intro hc
            rcases List.mem_append.mp hc with hc | hc
            · exact hstorm hc
            · exact absurd (List.mem_singleton.mp hc).symm (dyn_pt_ne_storm _)
          rw [if_neg hns, List.append_assoc]
          rfl

/-!  ### Claim C10: the virtio polling parameter  -/

/-- Claim C10: on an `RTVM` scenario, every successful `add_virtual_device`
call for a kind containing `virtio` leaves `--virtio_poll 1000000` present
(exactly once over the duplicate-free parameter lists the pass maintains),
at a position before the device's own (freshly drawn) parameter; for any
other VM type the call never changes whether the polling parameter is
present. -/
theorem C10_virtio_poll (s : LaunchScript) (kind : String) (vbdf : Option PyVal)
    (opts : String) (s' : LaunchScript)
    (h : s.add_virtual_device kind vbdf opts = some s') :
    (containsSub "virtio".data kind.data = true → s.vm.vm_type = some "RTVM" →
      "--virtio_poll 1000000" ∈ s'.dm_parameters ∧
      (s.dm_parameters.Nodup → s'.dm_parameters.Nodup ∧
        s'.dm_parameters.count "--virtio_poll 1000000" = 1) ∧
      (∃ slotText l₁ l₂,
        s'.dm_parameters = l₁ ++ "--virtio_poll 1000000" :: l₂ ∧
        (dynFullOpt "add_virtual_device" (slotText ++ " " ++ kind ++ " " ++ opts) ∉
            s.dm_parameters →
          dynFullOpt "add_virtual_device" (slotText ++ " " ++ kind ++ " " ++ opts) ∈
            l₂))) ∧
    (s.vm.vm_type ≠ some "RTVM" →
      ("--virtio_poll 1000000" ∈ s'.dm_parameters ↔
        "--virtio_poll 1000000" ∈ s.dm_parameters)) := by
  obtain ⟨slotText, hp⟩ := add_virtual_device_params s kind vbdf opts s' h
  have hpollne : ∀ c o : String, dynFullOpt c o ≠ "--virtio_poll 1000000" :=
    fun c o => dynFullOpt_ne_of_head c o (by decide)
  constructor
  · intro hv hrt
    have hcond : (containsSub "virtio".data kind.data &&
        (s.vm.vm_type == some "RTVM")) = true := by
      rw [Bool.and_eq_true, hv, hrt]
      exact ⟨rfl, by simp⟩
    have hX : virtioPollStep s kind =
        s.add_plain_dm_parameter "--virtio_poll 1000000" := by
      unfold virtioPollStep
      rw [if_pos hcond]
    rw [hX] at hp
    refine ⟨?_, ?_, ?_⟩
    · rw [hp]
      exact paramsExtends_mem (add_dynamic_extends _ _ _) (add_plain_mem _ _)
    · intro hnd
      have hnd' : s'.dm_parameters.Nodup := by
        rw [hp]
        exact add_dynamic_nodup _ _ _ (add_plain_nodup _ _ hnd)
      refine ⟨hnd', List.count_eq_one_of_mem hnd' ?_⟩
      rw [hp]
      exact paramsExtends_mem (add_dynamic_extends _ _ _) (add_plain_mem _ _)
    · rw [add_dynamic_params, add_plain_params] at hp
      by_cases hpoll : "--virtio_poll 1000000" ∈ s.dm_parameters
      · rw [if_pos hpoll] at hp
        obtain ⟨l₁, l₂, hsplit⟩ := List.append_of_mem hpoll
        by_cases hdev : dynFullOpt "add_virtual_device"
            (slotText ++ " " ++ kind ++ " " ++ opts) ∈ s.dm_parameters
        · rw [if_pos hdev] at hp
          refine ⟨slotText, l₁, l₂, by rw [hp, hsplit], ?_⟩
          intro hcontra
          exact absurd hdev hcontra
        · rw [if_neg hdev] at hp
          refine ⟨slotText, l₁, l₂ ++ [dynFullOpt "add_virtual_device"
            (slotText ++ " " ++ kind ++ " " ++ opts)], ?_, ?_⟩
          · rw [hp, hsplit, List.append_assoc]
            rfl
          · intro _
            simp
      · rw [if_neg hpoll] at hp
        by_cases hdev : dynFullOpt "add_virtual_device"
            (slotText ++ " " ++ kind ++ " " ++ opts) ∈
              s.dm_parameters ++ ["--virtio_poll 1000000"]
        · rw [if_pos hdev] at hp
          refine ⟨slotText, s.dm_parameters, [], by rw [hp], ?_⟩
          intro hcontra
          exfalso
          rcases List.mem_append.mp hdev with hd | hd
          · exact hcontra hd
          · exact hpollne _ _ (List.mem_singleton.mp hd)
        · rw [if_neg hdev] at hp
          refine ⟨slotText, s.dm_parameters,
            [dynFullOpt "add_virtual_device"
              (slotText ++ " " ++ kind ++ " " ++ opts)], ?_, ?_⟩
          · rw [hp, List.append_assoc]
            rfl
          · intro _
            simp
  · intro hne
    have hX : virtioPollStep s kind = s := by
      unfold virtioPollStep
      rw [if_neg]
      intro hc
      rw [Bool.and_eq_true] at hc
      exact hne (by simpa using hc.2)
    rw [hX, add_dynamic_params] at hp
    by_cases hdev : dynFullOpt "add_virtual_device"
        (slotText ++ " " ++ kind ++ " " ++ opts) ∈ s.dm_parameters
    · rw [if_pos hdev] at hp
      rw [hp]
    · rw [if_neg hdev] at hp
      rw [hp]
      constructor
      · intro hm
        rcases List.mem_append.mp hm with hm | hm
        · exact hm
        · exact absurd (List.mem_singleton.mp hm).symm (hpollne _ _)
      · exact fun hm => List.mem_append_left _ hm

/-- Witness for C10: on `rtvmScript` (vm type `RTVM`), adding a
`virtio-blk` device yields `virtioDemoState`, whose parameters satisfy
the instantiated conclusion. -/
theorem C10_witness :
    (containsSub "virtio".data "virtio-blk".data = true →
      rtvmScript.vm.vm_type = some "RTVM" →
      "--virtio_poll 1000000" ∈ virtioDemoState.dm_parameters ∧
      (rtvmScript.dm_parameters.Nodup → virtioDemoState.dm_parameters.Nodup ∧
        virtioDemoState.dm_parameters.count "--virtio_poll 1000000" = 1) ∧
      (∃ slotText l₁ l₂,
        virtioDemoState.dm_parameters = l₁ ++ "--virtio_poll 1000000" :: l₂ ∧
        (dynFullOpt "add_virtual_device" (slotText ++ " " ++ "virtio-blk" ++ " " ++ "x") ∉
            rtvmScript.dm_parameters →
          dynFullOpt "add_virtual_device" (slotText ++ " " ++ "virtio-blk" ++ " " ++ "x") ∈
            l₂))) ∧
    (rtvmScript.vm.vm_type ≠ some "RTVM" →
      ("--virtio_poll 1000000" ∈ virtioDemoState.dm_parameters ↔
        "--virtio_poll 1000000" ∈ rtvmScript.dm_parameters)) :=
  C10_virtio_poll rtvmScript "virtio-blk" none "x" virtioDemoState (by decide)

/-!  ### Claim C4: the interrupt-storm monitor  -/

/-- Claim C4 (amended): a successful `add_passthru_device` call resolves
some slot and option text; its own parameter is in the result.  If the
slot is 2 (GPU), the call never adds the storm-monitor parameter.  If the
slot is not 2, the storm-monitor parameter is present afterwards, and it
is appended *immediately after* the device's parameter exactly when
neither parameter pre-existed (so only the first non-GPU passthrough
device of a pass gets the monitor appended right after it; later ones
reuse the single existing occurrence). -/
theorem C4_storm_monitor_amended (s : LaunchScript) (bus dev fn : Nat)
    (opts : String) (s' : LaunchScript)
    (h : s.add_passthru_device bus dev fn opts = some s') :
    ∃ (vbdf : Nat) (o2 : String),
      dynFullOpt "add_passthrough_device" (passthruParamText vbdf bus dev fn o2) ∈
        s'.dm_parameters ∧
      ((vbdf = 2 ∧
        (stormParam ∈ s'.dm_parameters ↔ stormParam ∈ s.dm_parameters)) ∨
       (vbdf ≠ 2 ∧ stormParam ∈ s'.dm_parameters ∧
        (stormParam ∉ s.dm_parameters →
          dynFullOpt "add_passthrough_device" (passthruParamText vbdf bus dev fn o2) ∉
            s.dm_parameters →
          s'.dm_parameters = s.dm_parameters ++
            [dynFullOpt "add_passthrough_device" (passthruParamText vbdf bus dev fn o2),
             stormParam]))) :=
  add_passthru_spec s bus dev fn opts s' h

/-- Counterexample to C4 as stated: two non-GPU passthrough devices on a
fresh script.  After the second device, the parameter list is
`[first device, storm monitor, second device]` — the second device's
parameter is last, with *no* storm-monitor parameter immediately after it
(the dedup in `add_dynamic_dm_parameter` suppressed the second append). -/
theorem C4_counterexample :
    ((freshScript.add_passthru_device 0 0 0 "").bind
        (fun s => s.add_passthru_device 0 0 1 "")).map
      (fun s => s.dm_parameters) =
      some [dynFullOpt "add_passthrough_device" "3 0000:00:00.0 ",
        stormParam,
        dynFullOpt "add_passthrough_device" "4 0000:00:00.1 "] ∧
    ((freshScript.add_passthru_device 0 0 0 "").bind
        (fun s => s.add_passthru_device 0 0 1 "")).map
      (fun s => s.dm_parameters.getLast?) =
      some (some (dynFullOpt "add_passthrough_device" "4 0000:00:00.1 ")) ∧
    dynFullOpt "add_passthrough_device" "4 0000:00:00.1 " ≠ stormParam :=
  ⟨by decide, by decide, by decide⟩

/-- Witness for C4 at a concrete call: the first passthrough device of a
fresh pass (slot 3). -/
theorem C4_witness :
    ∃ (vbdf : Nat) (o2 : String),
      dynFullOpt "add_passthrough_device" (passthruParamText vbdf 0 0 0 o2) ∈
        ptDemoState.dm_parameters ∧
      ((vbdf = 2 ∧
        (stormParam ∈ ptDemoState.dm_parameters ↔
          stormParam ∈ freshScript.dm_parameters)) ∨
       (vbdf ≠ 2 ∧ stormParam ∈ ptDemoState.dm_parameters ∧
        (stormParam ∉ freshScript.dm_parameters →
          dynFullOpt "add_passthrough_device" (passthruParamText vbdf 0 0 0 o2) ∉
            freshScript.dm_parameters →
          ptDemoState.dm_parameters = freshScript.dm_parameters ++
            [dynFullOpt "add_passthrough_device" (passthruParamText vbdf 0 0 0 o2),
             stormParam]))) :=
  C4_storm_monitor_amended freshScript 0 0 0 "" ptDemoState (by decide)

/-!  ### Claim C5: the passthrough entry pattern  -/

/-- Claim C5 (amended): a scenario passthrough entry is silently skipped —
same state, no parameter, no error — exactly when the source's prefix
regex does not match (two lowercase-hex digits, `:`, `[01]` plus a hex
digit, *any non-newline character*, an octal digit, with arbitrary
trailing text); on a match the device is emitted through
`add_passthru_device`, whose parameter carries the matched numbers. -/
theorem C5_passthru_pattern_amended (s : LaunchScript) (entry : String) :
    (bdf_match entry = none → passthru_step s entry = some s) ∧
    (∀ b d f, bdf_match entry = some (b, d, f) →
      passthru_step s entry = s.add_passthru_device b d f "" ∧
      (∀ s', s.add_passthru_device b d f "" = some s' →
        ∃ (vbdf : Nat) (o2 : String),
          dynFullOpt "add_passthrough_device" (passthruParamText vbdf b d f o2) ∈
            s'.dm_parameters)) := by
  constructor
  · intro h
    simp [passthru_step, h]
  · intro b d f h
    refine ⟨by simp [passthru_step, h], ?_⟩
    intro s' h'
    obtain ⟨vbdf, o2, hmem, _⟩ := add_passthru_spec s b d f "" s' h'
    exact ⟨vbdf, o2, hmem⟩

/-- Counterexample to C5 as stated: the entry `00:01x0` contains no
literal dot, so under the claim it must be skipped with no parameter
emitted; the code's regex (whose `.` matches any character) accepts it
and emits a passthrough device (two parameters, device and monitor). -/
theorem C5_counterexample :
    strictBdfSpec "00:01x0" = false ∧
    bdf_match "00:01x0" = some (0, 1, 0) ∧
    (passthru_step freshScript "00:01x0").map
      (fun s => s.dm_parameters.length) = some 2 :=
  ⟨by decide, by decide, by decide⟩

/-- Witness for C5: a non-matching entry leaves the state untouched, and
a matching entry runs `add_passthru_device` with the parsed numbers. -/
theorem C5_witness :
    passthru_step freshScript "zz" = some freshScript ∧
    passthru_step freshScript "00:1f.0" = freshScript.add_passthru_device 0 31 0 "" :=
  ⟨(C5_passthru_pattern_amended freshScript "zz").1 (by decide),
   ((C5_passthru_pattern_amended freshScript "00:1f.0").2 0 31 0 (by decide)).1⟩

/-!  ### The enumeration pass only appends parameters  -/

theorem ite_plain_extends (s : LaunchScript) (c : Prop) [Decidable c] (t : String) :
    ParamsExtends s (if c then s.add_plain_dm_parameter t else s) := by
  by_cases h : c
  · rw [if_pos h]
    exact add_plain_extends s t
  · rw [if_neg h]
    exact paramsExtends_refl s

theorem add_init_extends (s : LaunchScript) (t : String) :
    ParamsExtends s (s.add_init_command t) :=
  ⟨[], by rw [add_init_params, List.append_nil]⟩

theorem add_deinit_extends (s : LaunchScript) (t : String) :
    ParamsExtends s (s.add_deinit_command t) :=
  ⟨[], by rw [add_deinit_params, List.append_nil]⟩

theorem add_virtual_device_extends (s : LaunchScript) (kind : String)
    (vbdf : Option PyVal) (opts : String) (s' : LaunchScript)
    (h : s.add_virtual_device kind vbdf opts = some s') : ParamsExtends s s' := by
  obtain ⟨slotText, hp⟩ := add_virtual_device_params s kind vbdf opts s' h
  have h1 : ParamsExtends s (virtioPollStep s kind) := by
    unfold virtioPollStep
    exact ite_plain_extends s _ _
  obtain ⟨u, hu⟩ := paramsExtends_trans h1
    (add_dynamic_extends (virtioPollStep s kind) "add_virtual_device"
      (slotText ++ " " ++ kind ++ " " ++ opts))
  exact ⟨u, by rw [hp, hu]⟩

theorem add_passthru_device_extends (s : LaunchScript) (bus dev fn : Nat)
    (opts : String) (s' : LaunchScript)
    (h : s.add_passthru_device bus dev fn opts = some s') : ParamsExtends s s' := by
  simp only [LaunchScript.add_passthru_device] at h
  cases hget : s.vbdf_allocator.get_virtual_bdf (findBoardDevice s.board bus dev fn)
      (some (if (opts == "") = true then
        get_option (findBoardDevice s.board bus dev fn) s.vm else opts)) with
  | none => rw [hget] at h; exact absurd h (by simp)
  | some p =>
    obtain ⟨vbdf, a⟩ := p
    rw [hget] at h
    simp only [Option.some_inj] at h
    subst h
    have h0 : ParamsExtends s ({ s with vbdf_allocator := a } : LaunchScript) :=
      ⟨[], by rw [params_set_allocator, List.append_nil]⟩
    by_cases hv : vbdf ≠ 2
    · rw [if_pos hv]
      exact paramsExtends_trans
        (paramsExtends_trans h0 (add_dynamic_extends _ _ _)) (add_dynamic_extends _ _ _)
    · rw [if_neg hv]
      exact paramsExtends_trans h0 (add_dynamic_extends _ _ _)

theorem ite_avd_extends (c : Prop) [Decidable c] (x : LaunchScript) (kind : String)
    (vbdf : Option PyVal) (opts : String) (s1 : LaunchScript)
    (h : (if c then x.add_virtual_device kind vbdf opts else some x) = some s1) :
    ParamsExtends x s1 := by
  by_cases hc : c
  · rw [if_pos hc] at h
    exact add_virtual_device_extends _ _ _ _ _ h
  · rw [if_neg hc] at h
    simp only [Option.some_inj] at h
    exact h ▸ paramsExtends_refl x

theorem foldlM_extends {α : Type} {f : LaunchScript → α → Option LaunchScript}
    (hf : ∀ x a y, f x a = some y → ParamsExtends x y) (l : List α) :
    ∀ s s', List.foldlM f s l = some s' → ParamsExtends s s' := by
  induction l with
  | nil =>
    intro s s' h
    simp only [List.foldlM_nil, pure, Option.some_inj] at h
    exact h ▸ paramsExtends_refl s
  | cons a t ih =>
    intro s s' h
    rw [List.foldlM_cons] at h
    cases hfa : f s a with
    | none => rw [hfa] at h; simp [bind] at h
    | some s1 =>
      rw [hfa] at h
      simp only [bind, Option.some_bind] at h
      exact paramsExtends_trans (hf _ _ _ hfa) (ih _ _ h)

theorem ivshmem_dev_step_extends (pfx : String) (s : LaunchScript)
    (r : IvshmemRegion) (s' : LaunchScript)
    (h : ivshmem_dev_step pfx s r = some s') : ParamsExtends s s' := by
  simp only [ivshmem_dev_step, bind, Option.bind_eq_some] at h
  obtain ⟨slot, _, nm, _, sz, _, havd⟩ := h
  exact add_virtual_device_extends _ _ _ _ _ havd

theorem vuart_conn_step_extends (vm_name : String) (s : LaunchScript)
    (p : Nat × VuartConnection) (s' : LaunchScript)
    (h : vuart_conn_step vm_name s p = some s') : ParamsExtends s s' := by
  unfold vuart_conn_step at h
  split at h
  · simp only [bind, Option.bind_eq_some] at h
    obtain ⟨slot, _, havd⟩ := h
    exact add_virtual_device_extends _ _ _ _ _ havd
  · simp only [Option.some_inj] at h
    exact h ▸ paramsExtends_refl s

theorem xhci_step_extends (s : LaunchScript) (e : String) (s' : LaunchScript)
    (h : xhci_step s e = some s') : ParamsExtends s s' :=
  add_virtual_device_extends _ _ _ _ _ h

theorem virtio_input_step_extends (s : LaunchScript) (inp : VirtioInput)
    (s' : LaunchScript) (h : virtio_input_step s inp = some s') :
    ParamsExtends s s' := by
  unfold virtio_input_step at h
  split at h
  · exact add_virtual_device_extends _ _ _ _ _ h
  · exact add_virtual_device_extends _ _ _ _ _ h
  · simp only [Option.some_inj] at h
    exact h ▸ paramsExtends_refl s

theorem virtio_console_step_extends (s : LaunchScript) (con : VirtioConsole)
    (s' : LaunchScript) (h : virtio_console_step s con = some s') :
    ParamsExtends s s' := by
  simp only [virtio_console_step] at h
  cases hbt : con.backend_type with
  | none =>
    rw [hbt] at h
    simp only [Option.some_inj] at h
    exact h ▸ paramsExtends_refl s
  | some bt =>
    rw [hbt] at h
    simp only [] at h
    by_cases h1 : (bt == "file") = true
    · rw [if_pos h1] at h
      exact add_virtual_device_extends _ _ _ _ _ h
    · rw [if_neg h1] at h
      by_cases h2 : (bt == "tty") = true
      · rw [if_pos h2] at h
        exact add_virtual_device_extends _ _ _ _ _ h
      · rw [if_neg h2] at h
        by_cases h3 : (bt == "sock server" || bt == "sock client") = true
        · rw [if_pos h3] at h
          simp only [bind, Option.bind_eq_some] at h
          obtain ⟨sock, _, havd⟩ := h
          exact add_virtual_device_extends _ _ _ _ _ havd
        · rw [if_neg h3] at h
          by_cases h4 : (bt == "pty" || bt == "stdio") = true
          · rw [if_pos h4] at h
            exact add_virtual_device_extends _ _ _ _ _ h
          · rw [if_neg h4] at h
            simp only [Option.some_inj] at h
            exact h ▸ paramsExtends_refl s

theorem virtio_network_step_extends (vm_name : String) (s : LaunchScript)
    (net : VirtioNetwork) (s' : LaunchScript)
    (h : virtio_network_step vm_name s net = some s') : ParamsExtends s s' := by
  simp only [virtio_network_step, bind, Option.bind_eq_some] at h
  obtain ⟨iname, _, havd⟩ := h
  exact paramsExtends_trans (add_init_extends _ _)
    (add_virtual_device_extends _ _ _ _ _ havd)

theorem virtio_block_step_extends (s : LaunchScript) (blk : String)
    (s' : LaunchScript) (h : virtio_block_step s blk = some s') :
    ParamsExtends s s' := by
  simp only [virtio_block_step] at h
  by_cases h1 : ((pySplitMax1 ':' blk).length == 1) = true
  · rw [if_pos h1] at h
    exact add_virtual_device_extends _ _ _ _ _ h
  · rw [if_neg h1] at h
    simp only [bind, Option.bind_eq_some, Option.some_inj] at h
    obtain ⟨s2, havd, hs'⟩ := h
    refine paramsExtends_trans (paramsExtends_trans (add_init_extends _ _)
      (add_virtual_device_extends _ _ _ _ _ havd)) ?_
    exact hs' ▸ add_deinit_extends s2 _

theorem virtio_gpu_step_extends (s : LaunchScript) (gpu : VirtioGpu)
    (s' : LaunchScript) (h : virtio_gpu_step s gpu = some s') :
    ParamsExtends s s' := by
  simp only [virtio_gpu_step] at h
  exact add_virtual_device_extends _ _ _ _ _ h

theorem lpc_step_extends (vm : VmScenario) (s s' : LaunchScript)
    (h : lpc_step vm s = some s') : ParamsExtends s s' := by
  unfold lpc_step at h
  exact ite_avd_extends _ _ _ _ _ _ h

theorem console_vuart_step_extends (vm : VmScenario) (s s' : LaunchScript)
    (h : console_vuart_step vm s = some s') : ParamsExtends s s' := by
  unfold console_vuart_step at h
  exact ite_avd_extends _ _ _ _ _ _ h

theorem vsock_step_extends (s : LaunchScript) (v : String) (s' : LaunchScript)
    (h : vsock_step s v = some s') : ParamsExtends s s' :=
  add_virtual_device_extends _ _ _ _ _ h

theorem passthru_step_extends (s : LaunchScript) (e : String) (s' : LaunchScript)
    (h : passthru_step s e = some s') : ParamsExtends s s' := by
  unfold passthru_step at h
  split at h
  · simp only [Option.some_inj] at h
    exact h ▸ paramsExtends_refl s
  · exact add_passthru_device_extends _ _ _ _ _ _ h

theorem rtvm_flags_extends (vm : VmScenario) (x : LaunchScript) :
    ParamsExtends x (if (vm.vm_type == some "RTVM") = true then
      (if (vm.lapic_passthrough == some "y") = true then
        (x.add_plain_dm_parameter "--rtvm").add_plain_dm_parameter "--lapic_pt"
      else x.add_plain_dm_parameter "--rtvm")
    else x) := by
  by_cases h1 : (vm.vm_type == some "RTVM") = true
  · rw [if_pos h1]
    by_cases h2 : (vm.lapic_passthrough == some "y") = true
    · rw [if_pos h2]
      exact paramsExtends_trans (add_plain_extends _ _) (add_plain_extends _ _)
    · rw [if_neg h2]
      exact add_plain_extends _ _
  · rw [if_neg h1]
    exact paramsExtends_refl _

/-- The first half of the enumeration only appends device-model parameters. -/
theorem post_cpu_body_a_extends (doc : ScenarioDoc) (vm : VmScenario)
    (vm_name : String) (s s' : LaunchScript)
    (h : post_cpu_body_a doc vm vm_name s = some s') : ParamsExtends s s' := by
  simp only [post_cpu_body_a, bind, Option.bind_eq_some, Option.some_inj] at h
  obtain ⟨s1, h1, s2, h2, s3, h3, s4, h4, s5, h5, s6, h6, hfin⟩ := h
  refine paramsExtends_trans (paramsExtends_trans (paramsExtends_trans
    (add_plain_extends s _) (ite_plain_extends _ _ _)) (lpc_step_extends _ _ _ h1))
    ?_
  refine paramsExtends_trans (paramsExtends_trans (ite_plain_extends _ _ _)
    (add_virtual_device_extends _ _ _ _ _ h2)) ?_
  refine paramsExtends_trans
    (foldlM_extends (fun x a y hy => ivshmem_dev_step_extends "dm:/" x a y hy) _ _ _ h3)
    ?_
  refine paramsExtends_trans
    (foldlM_extends (fun x a y hy => ivshmem_dev_step_extends "hv:/" x a y hy) _ _ _ h4)
    ?_
  refine paramsExtends_trans (console_vuart_step_extends _ _ _ h5) ?_
  exact hfin ▸ foldlM_extends (fun x a y hy => vuart_conn_step_extends vm_name x a y hy)
    _ _ _ h6

/-- The second half of the enumeration only appends device-model parameters. -/
theorem post_cpu_body_b_extends (vm : VmScenario)
    (vm_name : String) (s s' : LaunchScript)
    (h : post_cpu_body_b vm vm_name s = some s') : ParamsExtends s s' := by
  simp only [post_cpu_body_b, bind, Option.bind_eq_some, Option.some_inj] at h
  obtain ⟨s7, h7, s8, h8, s9, h9, s10, h10, s11, h11, s12, h12, s13, h13, s14, h14,
    hfin⟩ := h
  refine paramsExtends_trans (foldlM_extends xhci_step_extends _ _ _ h7) ?_
  refine paramsExtends_trans (foldlM_extends virtio_input_step_extends _ _ _ h8) ?_
  refine paramsExtends_trans (foldlM_extends virtio_console_step_extends _ _ _ h9) ?_
  refine paramsExtends_trans
    (foldlM_extends (fun x a y hy => virtio_network_step_extends vm_name x a y hy)
      _ _ _ h10)
    ?_
  refine paramsExtends_trans (foldlM_extends virtio_block_step_extends _ _ _ h11) ?_
  refine paramsExtends_trans (foldlM_extends virtio_gpu_step_extends _ _ _ h12) ?_
  refine paramsExtends_trans (foldlM_extends vsock_step_extends _ _ _ h13) ?_
  refine paramsExtends_trans (foldlM_extends passthru_step_extends _ _ _ h14) ?_
  exact hfin ▸ paramsExtends_trans (rtvm_flags_extends vm s14) (add_dynamic_extends _ _ _)

/-- Everything `post_cpu_body` does only appends device-model parameters. -/
theorem post_cpu_body_extends (doc : ScenarioDoc) (vm : VmScenario)
    (vm_name : String) (s s' : LaunchScript)
    (h : post_cpu_body doc vm vm_name s = some s') : ParamsExtends s s' := by
  simp only [post_cpu_body, bind, Option.bind_eq_some] at h
  obtain ⟨sm, ha, hb⟩ := h
  exact paramsExtends_trans (post_cpu_body_a_extends doc vm vm_name s sm ha)
    (post_cpu_body_b_extends vm vm_name sm s' hb)

/-!  ### Claim C6: the `add_cpus` parameter  -/

/-- Claim C6: the emitted `add_cpus` parameter lists exactly the
controller (APIC) ids that the VM's affinity cpus resolve to on the board
(deduplicated — the hypothesis records that the board maps the affinity
set to pairwise-distinct controller ids, which holds of board-inspector
output where APIC ids are unique), in strictly ascending order;
unresolvable cpus are simply excluded (the resolution function returns
`none` and the pass continues), and when nothing resolves the CPU step
leaves the script unchanged (no parameter). -/
theorem C6_add_cpus (board : Board) (doc : ScenarioDoc) (vm : VmScenario)
    (s : LaunchScript) (hgen : generate_for_one_vm board doc vm = some s)
    (hnodup : (lapicIds board.threads vm.cpu_affinity).Nodup) :
    (∀ n, n ∈ sortedLapicIds board.threads vm.cpu_affinity ↔
      ∃ c, c ∈ vm.cpu_affinity ∧ cpu_id_to_lapic_id board.threads c = some n) ∧
    List.Sorted (· < ·) (sortedLapicIds board.threads vm.cpu_affinity) ∧
    (lapicIds board.threads vm.cpu_affinity ≠ [] →
      dynFullOpt "add_cpus"
        (String.intercalate " "
          ((sortedLapicIds board.threads vm.cpu_affinity).map toString)) ∈
        s.dm_parameters) ∧
    (∀ s₀, lapicIds board.threads vm.cpu_affinity = [] →
      add_cpus_step board.threads s₀ vm.cpu_affinity = s₀) := by
  refine ⟨?_, ?_, ?_, ?_⟩
  · intro n
    rw [sortedLapicIds, (List.perm_insertionSort _ _).mem_iff, lapicIds,
      List.mem_filterMap]
    simp [List.mem_dedup]
  · have hperm := List.perm_insertionSort (fun a b => a ≤ b)
      (lapicIds board.threads vm.cpu_affinity)
    have hsorted := List.sorted_insertionSort (fun a b => a ≤ b)
      (lapicIds board.threads vm.cpu_affinity)
    exact List.Sorted.lt_of_le hsorted (hperm.nodup_iff.mpr hnodup)
  · intro hne
    simp only [generate_for_one_vm] at hgen
    cases hb : generate_body board doc vm (vm.name.getD "ACRN Post-Launched VM") with
    | none => rw [hb] at hgen; cases hgen
    | some sPre =>
      rw [hb] at hgen
      simp only [Option.map_some', Option.some_inj] at hgen
      have hmem : dynFullOpt "add_cpus"
          (String.intercalate " "
            ((sortedLapicIds board.threads vm.cpu_affinity).map toString)) ∈
          (add_cpus_step board.threads
            (pre_cpu_state board doc vm (vm.name.getD "ACRN Post-Launched VM"))
            vm.cpu_affinity).dm_parameters := by
        unfold add_cpus_step
        rw [if_neg (by simpa [List.isEmpty_iff] using hne)]
        exact add_dynamic_mem _ _ _
      have hext := post_cpu_body_extends doc vm _ _ _ hb
      rw [← hgen]
      exact paramsExtends_mem (add_plain_extends _ _) (paramsExtends_mem hext hmem)
  · intro s₀ hempty
    unfold add_cpus_step
    rw [if_pos (by rw [hempty]; rfl)]

/-- Witness for C6: `board4` (cpus 0..3 with controller ids 0, 16, 32, 48)
and affinity {3, 1} (given with a duplicate).  The parameter lists 16 and
48, in ascending order. -/
theorem C6_witness :
    (∀ n, n ∈ sortedLapicIds board4.threads vmAffinity.cpu_affinity ↔
      ∃ c, c ∈ vmAffinity.cpu_affinity ∧
        cpu_id_to_lapic_id board4.threads c = some n) ∧
    List.Sorted (· < ·) (sortedLapicIds board4.threads vmAffinity.cpu_affinity) ∧
    (lapicIds board4.threads vmAffinity.cpu_affinity ≠ [] →
      dynFullOpt "add_cpus"
        (String.intercalate " "
          ((sortedLapicIds board4.threads vmAffinity.cpu_affinity).map toString)) ∈
        c6DemoScript.dm_parameters) ∧
    (∀ s₀, lapicIds board4.threads vmAffinity.cpu_affinity = [] →
      add_cpus_step board4.threads s₀ vmAffinity.cpu_affinity = s₀) :=
  C6_add_cpus board4 emptyDoc vmAffinity c6DemoScript (by decide) (by decide)

/-!  ### Claim C8: the VM name as final token  -/

/-- Claim C8 (amended): the generated parameter list always contains the
VM's name, and the name is the final token unless the very same text was
already emitted as an earlier parameter — in that case the idempotent
append leaves only the earlier occurrence (and the list ends with the
logger-settings parameter instead). -/
theorem C8_vm_name_last_amended (board : Board) (doc : ScenarioDoc)
    (vm : VmScenario) (s : LaunchScript)
    (hgen : generate_for_one_vm board doc vm = some s) :
    vm.name.getD "ACRN Post-Launched VM" ∈ s.dm_parameters ∧
    (s.dm_parameters.getLast? = some (vm.name.getD "ACRN Post-Launched VM") ∨
      vm.name.getD "ACRN Post-Launched VM" ∈ s.dm_parameters.dropLast) := by
  simp only [generate_for_one_vm] at hgen
  cases hb : generate_body board doc vm (vm.name.getD "ACRN Post-Launched VM") with
  | none => rw [hb] at hgen; cases hgen
  | some sPre =>
    rw [hb] at hgen
    simp only [Option.map_some', Option.some_inj] at hgen
    rw [← hgen]
    refine ⟨add_plain_mem _ _, ?_⟩
    rw [add_plain_params]
    by_cases hn : vm.name.getD "ACRN Post-Launched VM" ∈ sPre.dm_parameters
    · rw [if_pos hn]
      exact mem_getLast?_or_dropLast hn
    · rw [if_neg hn]
      left
      exact List.getLast?_concat _

/-- Counterexample to C8 as stated: a real-time VM named `--rtvm`.  The
`--rtvm` flag parameter is emitted before the terminal name step, so the
idempotent append drops the name and the list ends with the
logger-settings parameter, not the VM name. -/
theorem C8_counterexample :
    rtvmNameCex.name = some "--rtvm" ∧
    (generate_for_one_vm emptyBoard emptyDoc rtvmNameCex).map
      (fun s => s.dm_parameters.getLast?) =
      some (some (dynFullOpt "add_logger_settings" "console=4 kmsg=3 disk=5")) ∧
    dynFullOpt "add_logger_settings" "console=4 kmsg=3 disk=5" ≠ "--rtvm" :=
  ⟨rfl, by decide, by decide⟩

/-- Witness for C8: the script generated for `trivialVm` (name `vm1`)
contains the name, which is its last parameter. -/
theorem C8_witness :
    trivialVm.name.getD "ACRN Post-Launched VM" ∈ c8DemoScript.dm_parameters ∧
    (c8DemoScript.dm_parameters.getLast? =
        some (trivialVm.name.getD "ACRN Post-Launched VM") ∨
      trivialVm.name.getD "ACRN Post-Launched VM" ∈
        c8DemoScript.dm_parameters.dropLast) :=
  C8_vm_name_last_amended emptyBoard emptyDoc trivialVm c8DemoScript (by decide)

/-!  ### Claim C9: the exit status of `main`  -/

theorem run_post_vms_all_some (board : Board) (doc : ScenarioDoc) (ids : List Int) :
    ∀ l : List (Int × VmScenario),
      (∀ p ∈ l, ids.contains p.1 = true →
        (generate_for_one_vm board doc p.2).isSome) →
      run_post_vms board doc ids l = some () := by
  intro l
  induction l with
  | nil => intro _; rfl
  | cons p t ih =>
    intro hall
    unfold run_post_vms at ih ⊢
    rw [List.foldlM_cons]
    by_cases hp : ids.contains p.1 = true
    · rw [if_pos hp]
      have hs := hall p (List.mem_cons_self _ _) hp
      cases hg : generate_for_one_vm board doc p.2 with
      | none => rw [hg] at hs; cases hs
      | some x =>
        simp only [Option.map_some', bind, Option.some_bind]
        exact ih (fun q hq hid => hall q (List.mem_cons_of_mem _ hq) hid)
    · rw [if_neg hp]
      simp only [bind, Option.some_bind]
      exact ih (fun q hq hid => hall q (List.mem_cons_of_mem _ hq) hid)

theorem run_post_vms_none (board : Board) (doc : ScenarioDoc) (ids : List Int) :
    ∀ l : List (Int × VmScenario),
      (∃ p ∈ l, ids.contains p.1 = true ∧
        generate_for_one_vm board doc p.2 = none) →
      run_post_vms board doc ids l = none := by
  intro l
  induction l with
  | nil => rintro ⟨p, hp, _⟩; cases hp
  | cons q t ih =>
    rintro ⟨p, hp, hid, hnone⟩
    unfold run_post_vms at ih ⊢
    rw [List.foldlM_cons]
    rcases List.mem_cons.mp hp with rfl | hp'
    · rw [if_pos hid, hnone]
      rfl
    · by_cases hq : ids.contains q.1 = true
      · rw [if_pos hq]
        cases hg : generate_for_one_vm board doc q.2 with
        | none => rfl
        | some x =>
          simp only [Option.map_some', bind, Option.some_bind]
          exact ih ⟨p, hp', hid, hnone⟩
      · rw [if_neg hq]
        simp only [bind, Option.some_bind]
        exact ih ⟨p, hp', hid, hnone⟩

/-- Claim C9 (amended): `main` returns 1 when the service VM is absent
while post-launched VMs exist, and 1 when the output directory cannot be
created (a plain file in the way, or any other mkdir error); with a
service VM, a usable output directory, well-formed board cpu ids and all
selected generations succeeding it returns 0 (also when nothing is
selected).  However, when the scenario has *neither* a service VM *nor*
post-launched VMs, `main` crashes on `int(None)` instead of returning 0,
and a failing generation pass for a selected VM likewise aborts the run —
both modelled as `none`. -/
theorem C9_main_exit_amended (board : Board) (scenario : Scenario)
    (user_vm_id : Int) (mkdir : MkdirOutcome) :
    (scenario.service_vm_id = none → scenario.post_vms ≠ [] →
      main board scenario user_vm_id mkdir = some 1) ∧
    (scenario.service_vm_id = none → scenario.post_vms = [] →
      main board scenario user_vm_id mkdir = none) ∧
    (∀ svid, scenario.service_vm_id = some svid →
      ((sos_cpu_texts board scenario).mapM pyIntDec).isSome →
      (mkdir = MkdirOutcome.existsFile ∨ mkdir = MkdirOutcome.otherError) →
      main board scenario user_vm_id mkdir = some 1) ∧
    (∀ svid, scenario.service_vm_id = some svid →
      ((sos_cpu_texts board scenario).mapM pyIntDec).isSome →
      (mkdir = MkdirOutcome.ok ∨ mkdir = MkdirOutcome.existsDir) →
      (∀ p ∈ scenario.post_vms,
        (selected_post_vm_ids scenario user_vm_id svid).contains p.1 = true →
        (generate_for_one_vm board scenario.doc p.2).isSome) →
      main board scenario user_vm_id mkdir = some 0) ∧
    (∀ svid, scenario.service_vm_id = some svid →
      ((sos_cpu_texts board scenario).mapM pyIntDec).isSome →
      (mkdir = MkdirOutcome.ok ∨ mkdir = MkdirOutcome.existsDir) →
      (∃ p ∈ scenario.post_vms,
        (selected_post_vm_ids scenario user_vm_id svid).contains p.1 = true ∧
        generate_for_one_vm board scenario.doc p.2 = none) →
      main board scenario user_vm_id mkdir = none) := by
  refine ⟨?_, ?_, ?_, ?_, ?_⟩
  · intro h1 h2
    unfold main
    rw [if_pos ⟨by rw [h1]; rfl, List.length_pos.mpr h2⟩]
  · intro h1 h2
    unfold main
    rw [if_neg (fun hc => by rw [h2] at hc; exact absurd hc.2 (by decide))]
    rw [h1]
    rfl
  · intro svid h1 hsos hmk
    unfold main
    rw [if_neg (fun hc => by rw [h1] at hc; cases hc.1)]
    rw [h1]
    simp only [bind, Option.some_bind]
    obtain ⟨cl, hcl⟩ := Option.isSome_iff_exists.mp hsos
    rw [hcl]
    simp only [Option.some_bind]
    rcases hmk with rfl | rfl <;> rfl
  · intro svid h1 hsos hmk hall
    unfold main
    rw [if_neg (fun hc => by rw [h1] at hc; cases hc.1)]
    rw [h1]
    simp only [bind, Option.some_bind]
    obtain ⟨cl, hcl⟩ := Option.isSome_iff_exists.mp hsos
    rw [hcl]
    simp only [Option.some_bind]
    have hrun := run_post_vms_all_some board scenario.doc
      (selected_post_vm_ids scenario user_vm_id svid) scenario.post_vms hall
    rcases hmk with rfl | rfl <;>
      · rw [hrun]
        rfl
  · intro svid h1 hsos hmk hex
    unfold main
    rw [if_neg (fun hc => by rw [h1] at hc; cases hc.1)]
    rw [h1]
    simp only [bind, Option.some_bind]
    obtain ⟨cl, hcl⟩ := Option.isSome_iff_exists.mp hsos
    rw [hcl]
    simp only [Option.some_bind]
    have hrun := run_post_vms_none board scenario.doc
      (selected_post_vm_ids scenario user_vm_id svid) scenario.post_vms hex
    rcases hmk with rfl | rfl <;>
      · rw [hrun]
        rfl

/-- Counterexample to C9 as stated: a scenario with no service VM and no
post-launched VMs.  The claim says `main` returns 0; the code instead
crashes on `int(None)` (modelled `none`), giving a non-zero process
status. -/
theorem C9_counterexample :
    main emptyBoard scNoSvcNoPost 0 MkdirOutcome.ok = none ∧
    (none : Option Int) ≠ some 0 :=
  ⟨by decide, by decide⟩

/-- Witness for C9 on concrete scenarios: missing service VM with a post
VM gives 1; a plain file at the output path gives 1; the happy path gives
0. -/
theorem C9_witness :
    main emptyBoard scNoSvcPost 0 MkdirOutcome.ok = some 1 ∧
    main emptyBoard scSvcPost 0 MkdirOutcome.existsFile = some 1 ∧
    main emptyBoard scSvcPost 0 MkdirOutcome.ok = some 0 :=
  ⟨(C9_main_exit_amended emptyBoard scNoSvcPost 0 MkdirOutcome.ok).1 rfl
      (by decide),
   (C9_main_exit_amended emptyBoard scSvcPost 0 MkdirOutcome.existsFile).2.2.1 0
      rfl (by decide) (Or.inl rfl),
   (C9_main_exit_amended emptyBoard scSvcPost 0 MkdirOutcome.ok).2.2.2.1 0 rfl
      (by decide) (Or.inl rfl) (by decide)⟩

end LaunchCfg
